import Mathlib

/-!
The respeakerd keyword detector and the UIManager state signals of avs-device-sdk.

Shallow embedding of

* `KWD/respeakerd/src/RespeakerdKeyWordDetector.cpp` (`create`, the constructor,
  the destructor, `init`, `detectionLoop`), and
* `SampleApp/src/UIManager.cpp` (`initDbus`, `printState`, `onDialogUXStateChanged`,
  `onConnectionStatusChanged`, `sendDbusSignal`).

Calls into libdbus, the logger, the base class `AbstractKeywordDetector` and the
console printer are recorded as events of a trace; what the outside world
answers to such a call (the value of the shutdown flag, the result of a poll,
the handle returned by the bus) is an explicit input of the embedded function.
-/

set_option autoImplicit false

namespace alexaClientSDK

/-- Handle of an open bus connection (`DBusConnection *`); a null pointer is
`none` of `Option DBusConnection`. -/
abbrev DBusConnection := Nat

/-- Message kinds of libdbus (`DBUS_MESSAGE_TYPE_*`). -/
inductive DBusMessageType where
  | METHOD_CALL
  | METHOD_RETURN
  | ERROR
  | SIGNAL
  deriving DecidableEq

/-- What the code reads of a `DBusMessage`: its type, interface and member. -/
structure DBusMessage where
  msgType : DBusMessageType
  interface : String
  member : String
  deriving DecidableEq

/-- The libdbus predicate `dbus_message_is_signal(msg, iface, signal_name)`, after
its documented contract: the message is a signal and carries the given interface
and member. -/
def dbus_message_is_signal (msg : DBusMessage) (iface signalName : String) : Bool :=
  msg.msgType == DBusMessageType.SIGNAL && msg.interface == iface && msg.member == signalName

namespace kwd

/-- Identity of the object behind a `std::shared_ptr<AudioInputStream>`; the null
pointer is `none` of `Option AudioInputStream`. -/
abbrev AudioInputStream := Nat

/-- Identity of a registered observer object. -/
abbrev Observer := Nat

/-- Modelled from the spec: the enumeration
`KeyWordDetectorStateObserverInterface::KeyWordDetectorState` is declared in a header
outside the translated files. The spec lists the detector states UNINITIALIZED, ACTIVE and
ERROR; `detectionLoop` names `ACTIVE` and `ERROR`. -/
inductive KeyWordDetectorState where
  | UNINITIALIZED
  | ACTIVE
  | ERROR
  deriving DecidableEq

/-- Modelled from the spec: the constant `KeyWordObserverInterface::UNSPECIFIED_INDEX`
is declared in a header outside the translated files; the spec calls it the marker for
an unspecified index. It is taken here as the largest value of the unsigned 64-bit
stream index type. -/
def UNSPECIFIED_INDEX : Nat := 2 ^ 64 - 1

/-- The match rule handed to `dbus_bus_add_match` by `init`. -/
def MATCH_RULE : String := "type=\x27signal\x27,interface=\x27respeakerd.signal\x27"

/-- Calls that leave `RespeakerdKeyWordDetector.cpp`, in the order they are made. -/
inductive Event where
  /-- Call of `notifyKeyWordDetectorStateObservers(state)` of the base class. -/
  | notifyKeyWordDetectorStateObservers (state : KeyWordDetectorState)
  /-- Call of `notifyKeyWordObservers(stream, keyword, beginIndex, endIndex)` of the base class. -/
  | notifyKeyWordObservers (stream : Option AudioInputStream) (keyword : String)
      (beginIndex endIndex : Nat)
  /-- Call of `dbus_connection_read_write(conn, timeout)` together with its result. -/
  | dbus_connection_read_write (conn : Option DBusConnection) (timeout : Int) (alive : Bool)
  /-- Call of `dbus_connection_pop_message(conn)` together with its result. -/
  | dbus_connection_pop_message (conn : Option DBusConnection) (msg : Option DBusMessage)
  /-- Call of `dbus_message_unref(msg)`. -/
  | dbus_message_unref (msg : DBusMessage)
  /-- Call of `std::this_thread::sleep_for(std::chrono::milliseconds(ms))`. -/
  | sleep_for (ms : Nat)
  /-- Log entry `ACSDK_ERROR(LX(event).d("reason", reason))`. -/
  | ACSDK_ERROR (event reason : String)
  /-- The private constructor ran. -/
  | construct (stream : Option AudioInputStream)
  /-- Entry into `init()`. -/
  | init
  /-- Call of `dbus_bus_get(DBUS_BUS_SYSTEM, &dbus_err)` with the handle it returned and
  whether it set the error. -/
  | dbus_bus_get (conn : Option DBusConnection) (errorSet : Bool)
  /-- Call of `dbus_error_free(&dbus_err)`. -/
  | dbus_error_free
  /-- Call of `dbus_bus_add_match(conn, rule, &dbus_err)` and whether it set the error. -/
  | dbus_bus_add_match (conn : DBusConnection) (rule : String) (errorSet : Bool)
  /-- Call of `dbus_connection_flush(conn)`. -/
  | dbus_connection_flush (conn : DBusConnection)
  /-- Statement `m_detectionThread = std::thread(&detectionLoop, this)`. -/
  | threadStart
  /-- Call of `m_detectionThread.join()`. -/
  | threadJoin
  deriving DecidableEq

/-- The members of `RespeakerdKeyWordDetector` and of its base class that the
translated functions touch. `m_detectionThread` records whether the thread object is
joinable. -/
structure RespeakerdKeyWordDetector where
  m_keyWordObservers : List Observer
  m_keyWordDetectorStateObservers : List Observer
  m_stream : Option AudioInputStream
  m_isShuttingDown : Bool
  m_detectionThread : Bool
  m_dbus_conn : Option DBusConnection
  deriving DecidableEq

/-- What the loop thread observes in one pass of `while (!m_isShuttingDown)`: the
value of the atomic flag read by the loop condition, the result of
`dbus_connection_read_write` and the result of `dbus_connection_pop_message`. The last
two are consulted only when the code reaches the respective call. -/
structure Poll where
  shuttingDown : Bool
  busAlive : Bool
  popped : Option DBusMessage
  deriving DecidableEq

/-- The body of the `while` loop of `detectionLoop` for one pass: the calls it makes
and whether the loop goes on (`false` is the `break`). -/
def detectionIteration (d : RespeakerdKeyWordDetector) (p : Poll) : List Event × Bool :=
  if !p.busAlive then
    ([Event.dbus_connection_read_write d.m_dbus_conn 0 false,
      Event.notifyKeyWordDetectorStateObservers KeyWordDetectorState.ERROR,
      Event.ACSDK_ERROR "readWriteFailed" "bus_alive == FALSE"], false)
  else
    match p.popped with
    | some msg =>
      if dbus_message_is_signal msg "respeakerd.signal" "trigger" then
        ([Event.dbus_connection_read_write d.m_dbus_conn 0 true,
          Event.dbus_connection_pop_message d.m_dbus_conn (some msg),
          Event.notifyKeyWordObservers d.m_stream "anykeyword" UNSPECIFIED_INDEX
            UNSPECIFIED_INDEX,
          Event.dbus_message_unref msg], true)
      else
        ([Event.dbus_connection_read_write d.m_dbus_conn 0 true,
          Event.dbus_connection_pop_message d.m_dbus_conn (some msg),
          Event.dbus_message_unref msg], true)
    | none =>
      ([Event.dbus_connection_read_write d.m_dbus_conn 0 true,
        Event.dbus_connection_pop_message d.m_dbus_conn none,
        Event.sleep_for 10], true)

/-- The `while (!m_isShuttingDown)` loop of `detectionLoop` run against the
observations `polls`, one per pass. The result is the trace of calls and whether the
loop has been left (by the flag or by `break`); it is `false` when the loop is still
running after the last observation. -/
def detectionWhile (d : RespeakerdKeyWordDetector) : List Poll → List Event × Bool
  | [] => ([], false)
  | p :: rest =>
    if p.shuttingDown then ([], true)
    else
      let body := detectionIteration d p
      if body.2 then
        let tail := detectionWhile d rest
        (body.1 ++ tail.1, tail.2)
      else (body.1, true)

/-- The function `RespeakerdKeyWordDetector::detectionLoop`: the ACTIVE notification at
entry, then the loop. -/
def detectionLoop (d : RespeakerdKeyWordDetector) (polls : List Poll) : List Event × Bool :=
  let loop := detectionWhile d polls
  (Event.notifyKeyWordDetectorStateObservers KeyWordDetectorState.ACTIVE :: loop.1, loop.2)

/-- What the bus answers during `init`: the handle returned by `dbus_bus_get`,
whether that call set `dbus_err`, and whether `dbus_bus_add_match` set `dbus_err`. The
code tests the handle and the error separately, so both are kept; libdbus sets the error
of `dbus_bus_get` only when it returns a null handle. -/
structure BusEnv where
  busGetConn : Option DBusConnection
  busGetError : Bool
  addMatchError : Bool
  deriving DecidableEq

/-- The private constructor: the observer sets go to the base class and the stream
is stored. The constructor does not set the flag and the connection pointer, and the
thread object is default-constructed (not joinable); the record holds `false`, `none`
and `false` for them until `init` assigns them. -/
def RespeakerdKeyWordDetector.new (stream : Option AudioInputStream)
    (keyWordObservers keyWordDetectorStateObservers : List Observer) :
    RespeakerdKeyWordDetector :=
  { m_keyWordObservers := keyWordObservers
    m_keyWordDetectorStateObservers := keyWordDetectorStateObservers
    m_stream := stream
    m_isShuttingDown := false
    m_detectionThread := false
    m_dbus_conn := none }

/-- The destructor: raise the flag and join the thread when it is joinable. -/
def RespeakerdKeyWordDetector.destroy (d : RespeakerdKeyWordDetector) :
    RespeakerdKeyWordDetector × List Event :=
  let d1 := { d with m_isShuttingDown := true }
  if d1.m_detectionThread then
    ({ d1 with m_detectionThread := false }, [Event.threadJoin])
  else (d1, [])

/-- The function `RespeakerdKeyWordDetector::init`: its return value, the detector
afterwards and the calls made. The local `dbus_err` is followed explicitly:
`dbus_error_free` resets it. -/
def RespeakerdKeyWordDetector.init (d : RespeakerdKeyWordDetector) (env : BusEnv) :
    Bool × RespeakerdKeyWordDetector × List Event :=
  let d1 := { d with m_dbus_conn := env.busGetConn }
  let err1 := env.busGetError
  let ev1 := [Event.init, Event.dbus_bus_get env.busGetConn env.busGetError] ++
    (if err1 then
      [Event.ACSDK_ERROR "initFailed" "getDBusConnectionFailed", Event.dbus_error_free]
     else [])
  let err2 := if err1 then false else err1
  match d1.m_dbus_conn with
  | none => (false, d1, ev1 ++ [Event.ACSDK_ERROR "initFailed" "getDBusConnectionFailed-1"])
  | some conn =>
    let err3 := err2 || env.addMatchError
    let ev2 := ev1 ++ [Event.dbus_bus_add_match conn MATCH_RULE env.addMatchError,
      Event.dbus_connection_flush conn]
    if err3 then
      (false, d1, ev2 ++ [Event.ACSDK_ERROR "initFailed" "DBusAddMatchFailed"])
    else
      (true, { d1 with m_isShuttingDown := false, m_detectionThread := true },
        ev2 ++ [Event.threadStart])

/-- The function `RespeakerdKeyWordDetector::create`: the detector handed back
(`none` is `nullptr`) and the calls made. On a failed `init` the `unique_ptr` goes out
of scope, which runs the destructor. -/
def RespeakerdKeyWordDetector.create (stream : Option AudioInputStream)
    (keyWordObservers keyWordDetectorStateObservers : List Observer) (env : BusEnv) :
    Option RespeakerdKeyWordDetector × List Event :=
  match stream with
  | none => (none, [Event.ACSDK_ERROR "createFailed" "nullStream"])
  | some _ =>
    let detector :=
      RespeakerdKeyWordDetector.new stream keyWordObservers keyWordDetectorStateObservers
    let r := detector.init env
    if !r.1 then
      (none, Event.construct stream :: r.2.2 ++
        [Event.ACSDK_ERROR "createFailed" "initDetectorFailed"] ++ (r.2.1.destroy).2)
    else (some r.2.1, Event.construct stream :: r.2.2)

/-- The keyword notifications of a trace, in order. -/
def keywordNotifications (t : List Event) : List Event :=
  t.filter fun e =>
    match e with
    | Event.notifyKeyWordObservers _ _ _ _ => true
    | _ => false

/-- The state notifications of a trace, in order. -/
def stateNotifications (t : List Event) : List KeyWordDetectorState :=
  t.filterMap fun e =>
    match e with
    | Event.notifyKeyWordDetectorStateObservers s => some s
    | _ => none

/-- The messages popped off the bus in a trace, in order. -/
def polledMessages (t : List Event) : List DBusMessage :=
  t.filterMap fun e =>
    match e with
    | Event.dbus_connection_pop_message _ (some m) => some m
    | _ => none

/-- The results of the polls (`dbus_connection_read_write`) of a trace, in order. -/
def pollResults (t : List Event) : List Bool :=
  t.filterMap fun e =>
    match e with
    | Event.dbus_connection_read_write _ _ alive => some alive
    | _ => none

/-- Whether a message is the signal the detector reacts to. -/
def isTrigger (m : DBusMessage) : Bool :=
  dbus_message_is_signal m "respeakerd.signal" "trigger"

/-- A detector as `create` leaves it: stream 7, connection 5, thread running. -/
def sampleDetector : RespeakerdKeyWordDetector :=
  { m_keyWordObservers := [1, 2]
    m_keyWordDetectorStateObservers := [3]
    m_stream := some 7
    m_isShuttingDown := false
    m_detectionThread := true
    m_dbus_conn := some 5 }

/-- The signal the detector waits for. -/
def triggerMessage : DBusMessage :=
  { msgType := DBusMessageType.SIGNAL, interface := "respeakerd.signal", member := "trigger" }

/-- A signal of the same interface with another member. -/
def otherMessage : DBusMessage :=
  { msgType := DBusMessageType.SIGNAL, interface := "respeakerd.signal", member := "on_idle" }

/-- A pass that finds the bus alive and pops `msg`. -/
def alivePoll (msg : Option DBusMessage) : Poll :=
  { shuttingDown := false, busAlive := true, popped := msg }

/-- A pass that finds the bus dead. -/
def deadPoll : Poll :=
  { shuttingDown := false, busAlive := false, popped := none }

/-- A pass whose loop condition reads the raised shutdown flag. -/
def shutdownPoll : Poll :=
  { shuttingDown := true, busAlive := true, popped := some triggerMessage }

/-- A bus that hands out connection 5 and accepts the match rule. -/
def goodBus : BusEnv :=
  { busGetConn := some 5, busGetError := false, addMatchError := false }

/-- A bus whose `dbus_bus_get` sets the error and returns no handle. -/
def noHandleBus : BusEnv :=
  { busGetConn := none, busGetError := true, addMatchError := false }

/-- A bus that hands out connection 5 and rejects the match rule. -/
def rejectingBus : BusEnv :=
  { busGetConn := some 5, busGetError := false, addMatchError := true }

/-- The durations of the sleeps of a trace, in milliseconds, in order. -/
def sleeps (t : List Event) : List Nat :=
  t.filterMap fun e =>
    match e with
    | Event.sleep_for ms => some ms
    | _ => none

/-- The messages released with `dbus_message_unref` in a trace, in order. -/
def releasedMessages (t : List Event) : List DBusMessage :=
  t.filterMap fun e =>
    match e with
    | Event.dbus_message_unref m => some m
    | _ => none

/-- The calls of `dbus_connection_pop_message` of a trace with their results, in order. -/
def popResults (t : List Event) : List (Option DBusMessage) :=
  t.filterMap fun e =>
    match e with
    | Event.dbus_connection_pop_message _ m => some m
    | _ => none

/-- The observations of a loop thread whose owner runs the destructor. `init` clears
the flag before it starts the thread and only the destructor raises it, so the passes
in `running` read it down; the flag is atomic, so every read of the loop condition
that comes after the store of the destructor, the passes in `later`, reads it raised. -/
def observationsUntilShutdown (running later : List Poll) : List Poll :=
  (running.map fun p => { p with shuttingDown := false }) ++
    later.map fun p => { p with shuttingDown := true }

/-- A call that reaches one observer. -/
inductive Callback where
  /-- Call of `observer->onKeyWordDetected(stream, keyword, beginIndex, endIndex)`. -/
  | onKeyWordDetected (observer : Observer) (stream : Option AudioInputStream)
      (keyword : String) (beginIndex endIndex : Nat)
  deriving DecidableEq

/-- Modelled from the spec: `AbstractKeywordDetector::notifyKeyWordObservers` belongs to
the base class, which is not among the translated files. After the fan-out guarantee of
the spec every observer in the set receives the event, one observer after the other on
the calling thread; `observers` is the set in the order in which the container is
walked. -/
def notifyKeyWordObservers (observers : List Observer) (stream : Option AudioInputStream)
    (keyword : String) (beginIndex endIndex : Nat) : List Callback :=
  observers.map fun o => Callback.onKeyWordDetected o stream keyword beginIndex endIndex

/-- The callbacks that the keyword notifications of a trace of detector `d` deliver, in
order. -/
def keywordCallbacks (d : RespeakerdKeyWordDetector) : List Event → List Callback
  | [] => []
  | Event.notifyKeyWordObservers stream keyword b e :: rest =>
    notifyKeyWordObservers d.m_keyWordObservers stream keyword b e ++ keywordCallbacks d rest
  | _ :: rest => keywordCallbacks d rest

/-- The observers reached by a sequence of callbacks, in order. -/
def notifiedObservers (cs : List Callback) : List Observer :=
  cs.map fun c =>
    match c with
    | Callback.onKeyWordDetected o _ _ _ _ => o

/-- A `std::unordered_set` of observers as the caller hands it to `create`:
`registered` is the sequence of insertions that built it, `iteration` the sequence in
which the container is walked. -/
structure ObserverSet where
  registered : List Observer
  iteration : List Observer
  deriving DecidableEq

/-- What C++ grants about an unordered set: it is walked without repetition and holds
exactly the inserted elements. The order of the walk is left open. -/
def ObserverSet.valid (s : ObserverSet) : Prop :=
  s.iteration.Nodup ∧ (∀ o ∈ s.iteration, o ∈ s.registered) ∧
    ∀ o ∈ s.registered, o ∈ s.iteration

/-- The set built by registering observer 1 and then observer 2, in a container that
walks the later insertion first. -/
def reversedSet : ObserverSet :=
  { registered := [1, 2], iteration := [2, 1] }

/-- The detector that `create` returns for stream 7, the set `reversedSet`, the state
observer 3 and a working bus. -/
def reversedDetector : RespeakerdKeyWordDetector :=
  { m_keyWordObservers := [2, 1]
    m_keyWordDetectorStateObservers := [3]
    m_stream := some 7
    m_isShuttingDown := false
    m_detectionThread := true
    m_dbus_conn := some 5 }

end kwd

namespace sampleApp

/-- The enumeration `DialogUXStateObserverInterface::DialogUXState`, with the five
enumerators that the `switch` of `printState` lists. -/
inductive DialogUXState where
  | IDLE
  | LISTENING
  | THINKING
  | SPEAKING
  | FINISHED
  deriving DecidableEq

/-- Modelled from the spec: the enumeration `ConnectionStatusObserverInterface::Status`
is declared in a header outside the translated files. `UIManager.cpp` names
`DISCONNECTED`, `PENDING` and `CONNECTED`; `other` stands for any further value, for which
the spec says that nothing is emitted. -/
inductive Status where
  | DISCONNECTED
  | PENDING
  | CONNECTED
  | other (raw : Nat)
  deriving DecidableEq

/-- Modelled from the spec: the enumeration
`ConnectionStatusObserverInterface::ChangedReason` is declared in a header outside the
translated files and the spec does not list its values; only a raw value is kept. -/
abbrev ChangedReason := Nat

/-- Calls that leave the state observers of `UIManager.cpp`, in the order they are made. -/
inductive UIEvent where
  /-- Call of `ConsolePrinter::prettyPrint(text)`. -/
  | prettyPrint (text : String)
  /-- Call of `sendDbusSignal(signalName)`. -/
  | sendDbusSignal (signalName : String)
  deriving DecidableEq

/-- The members of `UIManager` that the translated functions touch. -/
structure UIManager where
  m_dialogState : DialogUXState
  m_connectionStatus : Status
  m_dbus_conn : Option DBusConnection
  deriving DecidableEq

/-- The function `UIManager::printState`. -/
def UIManager.printState (ui : UIManager) : List UIEvent :=
  if ui.m_connectionStatus = Status.DISCONNECTED then
    [UIEvent.prettyPrint "Client not connected!"]
  else if ui.m_connectionStatus = Status.PENDING then
    [UIEvent.prettyPrint "Connecting..."]
  else if ui.m_connectionStatus = Status.CONNECTED then
    match ui.m_dialogState with
    | DialogUXState.IDLE => [UIEvent.prettyPrint "Alexa is currently idle!"]
    | DialogUXState.LISTENING => [UIEvent.prettyPrint "Listening..."]
    | DialogUXState.THINKING => [UIEvent.prettyPrint "Thinking..."]
    | DialogUXState.SPEAKING => [UIEvent.prettyPrint "Speaking..."]
    | DialogUXState.FINISHED => []
  else []

/-- The task that `UIManager::onDialogUXStateChanged(state)` hands to `m_executor`: the
object after the task has run and the calls the task made. The executor runs its tasks
one after the other in the order of submission, so a sequence of reports is the
sequence of their tasks. -/
def UIManager.onDialogUXStateChanged (ui : UIManager) (state : DialogUXState) :
    UIManager × List UIEvent :=
  if state = ui.m_dialogState then (ui, [])
  else
    let ui1 := { ui with m_dialogState := state }
    let printed := ui1.printState
    if ui1.m_dialogState = DialogUXState.IDLE then
      (ui1, printed ++ [UIEvent.sendDbusSignal "on_idle"])
    else if ui1.m_dialogState = DialogUXState.LISTENING then
      (ui1, printed ++ [UIEvent.sendDbusSignal "on_listen"])
    else if ui1.m_dialogState = DialogUXState.THINKING then
      (ui1, printed ++ [UIEvent.sendDbusSignal "on_think"])
    else if ui1.m_dialogState = DialogUXState.SPEAKING then
      (ui1, printed ++ [UIEvent.sendDbusSignal "on_speak"])
    else (ui1, printed)

/-- The task that `UIManager::onConnectionStatusChanged(status, reason)` hands to
`m_executor`; the lambda captures `this` and `status` only. -/
def UIManager.onConnectionStatusChanged (ui : UIManager) (status : Status)
    (_reason : ChangedReason) : UIManager × List UIEvent :=
  if ui.m_connectionStatus = status then (ui, [])
  else
    let ui1 := { ui with m_connectionStatus := status }
    let printed := ui1.printState
    if ui1.m_connectionStatus = Status.DISCONNECTED ∨
        ui1.m_connectionStatus = Status.PENDING then
      (ui1, printed ++ [UIEvent.sendDbusSignal "connecting"])
    else if ui1.m_connectionStatus = Status.CONNECTED then
      (ui1, printed ++ [UIEvent.sendDbusSignal "ready"])
    else (ui1, printed)

/-- A sequence of calls of `onDialogUXStateChanged`, their tasks run in order. -/
def UIManager.reportDialogStates (ui : UIManager) :
    List DialogUXState → UIManager × List UIEvent
  | [] => (ui, [])
  | s :: rest =>
    let r := ui.onDialogUXStateChanged s
    let r2 := UIManager.reportDialogStates r.1 rest
    (r2.1, r.2 ++ r2.2)

/-- The names of the signals requested in a trace, in order. -/
def signals (t : List UIEvent) : List String :=
  t.filterMap fun e =>
    match e with
    | UIEvent.sendDbusSignal n => some n
    | _ => none

/-- A connected `UIManager` whose last observed dialog state is `s`. -/
def connectedUI (s : DialogUXState) : UIManager :=
  { m_dialogState := s, m_connectionStatus := Status.CONNECTED, m_dbus_conn := some 9 }

/-- Calls that leave `initDbus`, `sendDbusSignal` and the state observers, in the order
they are made. -/
inductive BusCall where
  /-- Call of `ConsolePrinter::prettyPrint(text)`. -/
  | prettyPrint (text : String)
  /-- Log entry `ACSDK_LOG(Level::INFO, LX(event).d("signalName", signalName))`. -/
  | ACSDK_LOG_INFO (event signalName : String)
  /-- Log entry `ACSDK_ERROR(LX(event).d("reason", reason))`. -/
  | ACSDK_ERROR (event reason : String)
  /-- Call of `dbus_bus_get(DBUS_BUS_SYSTEM, &dbus_err)` with the handle it returned and
  whether it set the error. -/
  | dbus_bus_get (conn : Option DBusConnection) (errorSet : Bool)
  /-- Call of `dbus_error_free(&dbus_err)`. -/
  | dbus_error_free
  /-- Call of `dbus_message_new_signal(path, iface, name)` with the message it returned. -/
  | dbus_message_new_signal (path iface name : String) (msg : Option DBusMessage)
  /-- Call of `dbus_connection_send(conn, msg, &serial)` with its result. -/
  | dbus_connection_send (conn : Option DBusConnection) (msg : DBusMessage) (ok : Bool)
  /-- Call of `dbus_connection_flush(conn)`. -/
  | dbus_connection_flush (conn : Option DBusConnection)
  /-- Call of `dbus_message_unref(msg)`. -/
  | dbus_message_unref (msg : DBusMessage)
  deriving DecidableEq

/-- What the bus answers during `initDbus`: the handle returned by `dbus_bus_get` and
whether that call set `dbus_err`. -/
structure GetEnv where
  busGetConn : Option DBusConnection
  busGetError : Bool
  deriving DecidableEq

/-- What libdbus answers during `sendDbusSignal`: whether `dbus_message_new_signal`
returned a message and whether `dbus_connection_send` returned true. The second answer
is consulted only when the code reaches the call. -/
structure SendEnv where
  newSignalOk : Bool
  sendOk : Bool
  deriving DecidableEq

/-- The function `UIManager::initDbus`: its return value, the object afterwards and the
calls made. -/
def UIManager.initDbus (ui : UIManager) (env : GetEnv) : Bool × UIManager × List BusCall :=
  let ui1 := { ui with m_dbus_conn := env.busGetConn }
  let ev1 := [BusCall.dbus_bus_get env.busGetConn env.busGetError] ++
    (if env.busGetError then
      [BusCall.ACSDK_ERROR "initFailed" "getDBusConnectionFailed", BusCall.dbus_error_free]
     else [])
  match ui1.m_dbus_conn with
  | none => (false, ui1, ev1 ++ [BusCall.ACSDK_ERROR "initFailed" "getDBusConnectionFailed-1"])
  | some _ => (true, ui1, ev1)

/-- The function `UIManager::sendDbusSignal`: the calls it makes. The two early
`return`s end the function after their log entry. -/
def UIManager.sendDbusSignal (ui : UIManager) (signalName : String) (env : SendEnv) :
    List BusCall :=
  let msg : Option DBusMessage :=
    if env.newSignalOk then
      some { msgType := DBusMessageType.SIGNAL, interface := "respeakerd.signal",
             member := signalName }
    else none
  let ev1 := [BusCall.ACSDK_LOG_INFO "DBusSignal" signalName,
    BusCall.dbus_message_new_signal "/io/respeaker/respeakerd" "respeakerd.signal" signalName
      msg]
  match msg with
  | none => ev1 ++ [BusCall.ACSDK_ERROR "DBusFailed" "create message failed"]
  | some m =>
    if !env.sendOk then
      ev1 ++ [BusCall.dbus_connection_send ui.m_dbus_conn m false,
        BusCall.ACSDK_ERROR "DBusFailed" "send message failed"]
    else
      ev1 ++ [BusCall.dbus_connection_send ui.m_dbus_conn m true,
        BusCall.dbus_connection_flush ui.m_dbus_conn,
        BusCall.dbus_message_unref m]

/-- The calls behind the calls of a task: `sendDbusSignal` is replaced by what its body
does on the object `ui` with the answers `env`. -/
def UIManager.expand (ui : UIManager) (env : SendEnv) : List UIEvent → List BusCall
  | [] => []
  | UIEvent.prettyPrint text :: rest => BusCall.prettyPrint text :: UIManager.expand ui env rest
  | UIEvent.sendDbusSignal n :: rest => ui.sendDbusSignal n env ++ UIManager.expand ui env rest

/-- A call of one of the three entry points, with what libdbus answers while it runs. -/
inductive Request where
  | initDbus (bus : GetEnv)
  | onDialogUXStateChanged (state : DialogUXState) (send : SendEnv)
  | onConnectionStatusChanged (status : Status) (reason : ChangedReason) (send : SendEnv)
  deriving DecidableEq

/-- One request served: the object afterwards and the calls made. -/
def UIManager.serve (ui : UIManager) : Request → UIManager × List BusCall
  | Request.initDbus bus => ((ui.initDbus bus).2.1, (ui.initDbus bus).2.2)
  | Request.onDialogUXStateChanged state send =>
    let r := ui.onDialogUXStateChanged state
    (r.1, UIManager.expand r.1 send r.2)
  | Request.onConnectionStatusChanged status reason send =>
    let r := ui.onConnectionStatusChanged status reason
    (r.1, UIManager.expand r.1 send r.2)

/-- A sequence of requests served one after the other. -/
def UIManager.serveAll (ui : UIManager) : List Request → UIManager × List BusCall
  | [] => (ui, [])
  | q :: rest =>
    let r := ui.serve q
    let r2 := UIManager.serveAll r.1 rest
    (r2.1, r.2 ++ r2.2)

/-- The connection handles on which a trace calls `dbus_connection_send`, in order. -/
def sendHandles (t : List BusCall) : List (Option DBusConnection) :=
  t.filterMap fun e =>
    match e with
    | BusCall.dbus_connection_send conn _ _ => some conn
    | _ => none

/-- The connection handles that a trace flushes, in order. -/
def flushes (t : List BusCall) : List (Option DBusConnection) :=
  t.filterMap fun e =>
    match e with
    | BusCall.dbus_connection_flush conn => some conn
    | _ => none

/-- A `UIManager` before any `initDbus`, its connection pointer null. -/
def freshUI : UIManager :=
  { m_dialogState := DialogUXState.IDLE, m_connectionStatus := Status.DISCONNECTED,
    m_dbus_conn := none }

/-- A bus that returns no handle and sets the error. -/
def noHandle : GetEnv := { busGetConn := none, busGetError := true }

/-- A bus that hands out connection 9. -/
def handleNine : GetEnv := { busGetConn := some 9, busGetError := false }

/-- Message construction fails. -/
def noMessage : SendEnv := { newSignalOk := false, sendOk := false }

/-- Message construction succeeds and the send call fails. -/
def sendFails : SendEnv := { newSignalOk := true, sendOk := false }

/-- Message construction and the send call succeed. -/
def sendWorks : SendEnv := { newSignalOk := true, sendOk := true }

end sampleApp

/-! # Theorems -/

namespace kwd

/-! ## The detection loop -/

theorem keywordNotifications_append (a b : List Event) :
    keywordNotifications (a ++ b) = keywordNotifications a ++ keywordNotifications b := by
  simp [keywordNotifications]

theorem stateNotifications_append (a b : List Event) :
    stateNotifications (a ++ b) = stateNotifications a ++ stateNotifications b := by
  simp [stateNotifications]

theorem polledMessages_append (a b : List Event) :
    polledMessages (a ++ b) = polledMessages a ++ polledMessages b := by
  simp [polledMessages]

theorem pollResults_append (a b : List Event) :
    pollResults (a ++ b) = pollResults a ++ pollResults b := by
  simp [pollResults]

/-- One pass of the loop notifies the keyword observers once for a popped trigger and
not at all otherwise. -/
theorem detectionIteration_keyword_count (d : RespeakerdKeyWordDetector) (p : Poll) :
    (keywordNotifications (detectionIteration d p).1).length =
      ((polledMessages (detectionIteration d p).1).filter isTrigger).length := by
  unfold detectionIteration
  cases hb : p.busAlive with
  | false => simp [keywordNotifications, polledMessages]
  | true =>
    cases hm : p.popped with
    | none => simp [keywordNotifications, polledMessages]
    | some msg =>
      by_cases ht : dbus_message_is_signal msg "respeakerd.signal" "trigger" = true
      · simp [keywordNotifications, polledMessages, isTrigger, ht]
      · simp [keywordNotifications, polledMessages, isTrigger, ht]

theorem detectionWhile_keyword_count (d : RespeakerdKeyWordDetector) (polls : List Poll) :
    (keywordNotifications (detectionWhile d polls).1).length =
      ((polledMessages (detectionWhile d polls).1).filter isTrigger).length := by
  induction polls with
  | nil => simp [detectionWhile, keywordNotifications, polledMessages]
  | cons p rest ih =>
    unfold detectionWhile
    by_cases hs : p.shuttingDown = true
    · simp [hs, keywordNotifications, polledMessages]
    · by_cases hc : (detectionIteration d p).2 = true
      · simp only [hs, hc, if_true, if_false, Bool.false_eq_true]
        rw [keywordNotifications_append, polledMessages_append, List.filter_append,
          List.length_append, List.length_append, ih, detectionIteration_keyword_count]
      · simp only [hs, hc, if_false, Bool.false_eq_true]
        exact detectionIteration_keyword_count d p

/-- While no pass reads the raised flag or finds the bus dead, the loop pops exactly
what the bus returns, pass after pass. -/
theorem detectionWhile_polled_all (d : RespeakerdKeyWordDetector) (polls : List Poll)
    (h : ∀ p ∈ polls, p.shuttingDown = false ∧ p.busAlive = true) :
    polledMessages (detectionWhile d polls).1 = polls.filterMap fun p => p.popped := by
  induction polls with
  | nil => simp [detectionWhile, polledMessages]
  | cons p rest ih =>
    obtain ⟨hs, hb⟩ := h p (List.mem_cons_self _ _)
    have ih2 := ih fun q hq => h q (List.mem_cons_of_mem _ hq)
    have hbody : (detectionIteration d p).2 = true ∧
        polledMessages (detectionIteration d p).1 = p.popped.toList := by
      unfold detectionIteration
      cases hm : p.popped with
      | none => simp [hb, polledMessages]
      | some msg =>
        by_cases ht : dbus_message_is_signal msg "respeakerd.signal" "trigger" = true
        · simp [hb, ht, polledMessages]
        · simp [hb, ht, polledMessages]
    unfold detectionWhile
    simp only [hs, hbody.1, if_true, if_false, Bool.false_eq_true]
    rw [polledMessages_append, hbody.2, ih2]
    cases hm : p.popped <;> simp [hm]

/-- C1: in every run of `detectionLoop` the number of keyword notifications equals the
number of popped messages that are a signal with interface respeakerd.signal and member
trigger; a pass of the loop that pops a message with another interface or member makes
exactly the calls read_write, pop_message and unref, so it notifies neither the keyword
observers nor the state observers; and as long as no pass reads the raised flag or finds
the bus dead, the popped messages are the messages the bus returned, so the number of
keyword notifications is the number of triggers among them. -/
theorem detectionLoop_keyword_iff_trigger (d : RespeakerdKeyWordDetector)
    (polls : List Poll) :
    (keywordNotifications (detectionLoop d polls).1).length =
        ((polledMessages (detectionLoop d polls).1).filter isTrigger).length ∧
      (∀ (p : Poll) (m : DBusMessage), p.busAlive = true → p.popped = some m →
        (m.interface ≠ "respeakerd.signal" ∨ m.member ≠ "trigger") →
        detectionIteration d p =
            ([Event.dbus_connection_read_write d.m_dbus_conn 0 true,
              Event.dbus_connection_pop_message d.m_dbus_conn (some m),
              Event.dbus_message_unref m], true) ∧
          keywordNotifications (detectionIteration d p).1 = [] ∧
          stateNotifications (detectionIteration d p).1 = []) ∧
      ((∀ p ∈ polls, p.shuttingDown = false ∧ p.busAlive = true) →
        (keywordNotifications (detectionLoop d polls).1).length =
          ((polls.filterMap fun p => p.popped).filter isTrigger).length) := by
  have hcount : (keywordNotifications (detectionLoop d polls).1).length =
      ((polledMessages (detectionWhile d polls).1).filter isTrigger).length := by
    have h := detectionWhile_keyword_count d polls
    simpa [detectionLoop, keywordNotifications] using h
  refine ⟨?_, ?_, ?_⟩
  · rw [hcount]
    simp [detectionLoop, polledMessages]
  · intro p m hb hm hne
    have ht : dbus_message_is_signal m "respeakerd.signal" "trigger" = false := by
      rcases hne with h | h <;> simp [dbus_message_is_signal, h]
    have hbody : detectionIteration d p =
        ([Event.dbus_connection_read_write d.m_dbus_conn 0 true,
          Event.dbus_connection_pop_message d.m_dbus_conn (some m),
          Event.dbus_message_unref m], true) := by
      simp [detectionIteration, hb, hm, ht]
    refine ⟨hbody, ?_, ?_⟩
    · rw [hbody]; simp [keywordNotifications]
    · rw [hbody]; simp [stateNotifications]
  · intro hall
    rw [hcount, detectionWhile_polled_all d polls hall]

/-- Witness of C1: a run that pops two triggers and one other signal notifies twice, and
the pass that pops the other signal notifies nobody. -/
theorem detectionLoop_keyword_iff_trigger_witness :
    (keywordNotifications (detectionLoop sampleDetector
        [alivePoll none, alivePoll (some triggerMessage), alivePoll (some otherMessage),
          alivePoll (some triggerMessage)]).1).length = 2 ∧
      keywordNotifications (detectionIteration sampleDetector (alivePoll (some otherMessage))).1
        = [] ∧
      stateNotifications (detectionIteration sampleDetector (alivePoll (some otherMessage))).1
        = [] :=
  ⟨((detectionLoop_keyword_iff_trigger sampleDetector _).2.2 (by decide)).trans (by decide),
    ((detectionLoop_keyword_iff_trigger sampleDetector []).2.1 (alivePoll (some otherMessage))
      otherMessage rfl rfl (Or.inr (by decide))).2⟩

/-- Every keyword notification of one pass carries the stored stream, the fixed label and
the unspecified index twice. -/
theorem detectionIteration_keyword_args (d : RespeakerdKeyWordDetector) (p : Poll) :
    keywordNotifications (detectionIteration d p).1 =
      List.replicate ((polledMessages (detectionIteration d p).1).filter isTrigger).length
        (Event.notifyKeyWordObservers d.m_stream "anykeyword" UNSPECIFIED_INDEX
          UNSPECIFIED_INDEX) := by
  unfold detectionIteration
  cases hb : p.busAlive with
  | false => simp [keywordNotifications, polledMessages]
  | true =>
    cases hm : p.popped with
    | none => simp [keywordNotifications, polledMessages]
    | some msg =>
      by_cases ht : dbus_message_is_signal msg "respeakerd.signal" "trigger" = true
      · simp [keywordNotifications, polledMessages, isTrigger, ht, List.replicate]
      · simp [keywordNotifications, polledMessages, isTrigger, ht]

theorem detectionWhile_keyword_args (d : RespeakerdKeyWordDetector) (polls : List Poll) :
    keywordNotifications (detectionWhile d polls).1 =
      List.replicate ((polledMessages (detectionWhile d polls).1).filter isTrigger).length
        (Event.notifyKeyWordObservers d.m_stream "anykeyword" UNSPECIFIED_INDEX
          UNSPECIFIED_INDEX) := by
  induction polls with
  | nil => simp [detectionWhile, keywordNotifications, polledMessages]
  | cons p rest ih =>
    unfold detectionWhile
    by_cases hs : p.shuttingDown = true
    · simp [hs, keywordNotifications, polledMessages]
    · by_cases hc : (detectionIteration d p).2 = true
      · simp only [hs, hc, if_true, if_false, Bool.false_eq_true]
        rw [keywordNotifications_append, polledMessages_append, List.filter_append,
          List.length_append, ih, detectionIteration_keyword_args, List.replicate_add]
      · simp only [hs, hc, if_false, Bool.false_eq_true]
        exact detectionIteration_keyword_args d p

/-- The function `init` leaves the stored stream alone. -/
theorem init_stream (d : RespeakerdKeyWordDetector) (env : BusEnv) :
    (d.init env).2.1.m_stream = d.m_stream := by
  obtain ⟨c, e1, e2⟩ := env
  cases c <;> cases e1 <;> cases e2 <;> rfl

/-- A detector handed back by `create` stores the stream it was created with, and that
stream is not null. -/
theorem create_stream (stream : Option AudioInputStream)
    (keyWordObservers keyWordDetectorStateObservers : List Observer) (env : BusEnv)
    (d : RespeakerdKeyWordDetector)
    (h : (RespeakerdKeyWordDetector.create stream keyWordObservers
      keyWordDetectorStateObservers env).1 = some d) :
    d.m_stream = stream ∧ stream ≠ none := by
  cases stream with
  | none => simp [RespeakerdKeyWordDetector.create] at h
  | some st =>
    simp only [RespeakerdKeyWordDetector.create] at h
    split at h
    · simp at h
    · simp only [Option.some.injEq] at h
      subst h
      exact ⟨init_stream _ env, by simp⟩

/-- C2: when the detector handed back by `create` polls exactly one trigger signal in a
run of `detectionLoop`, the run makes exactly one keyword notification, and its arguments
are the stream given to `create`, the label anykeyword, and `UNSPECIFIED_INDEX` for the
begin and the end index. -/
theorem detectionLoop_single_trigger (stream : Option AudioInputStream)
    (keyWordObservers keyWordDetectorStateObservers : List Observer) (env : BusEnv)
    (d : RespeakerdKeyWordDetector) (polls : List Poll)
    (hcreate : (RespeakerdKeyWordDetector.create stream keyWordObservers
      keyWordDetectorStateObservers env).1 = some d)
    (hone : ((polledMessages (detectionLoop d polls).1).filter isTrigger).length = 1) :
    keywordNotifications (detectionLoop d polls).1 =
      [Event.notifyKeyWordObservers stream "anykeyword" UNSPECIFIED_INDEX
        UNSPECIFIED_INDEX] := by
  have hs := (create_stream stream keyWordObservers keyWordDetectorStateObservers env d
    hcreate).1
  have hw := detectionWhile_keyword_args d polls
  have hone2 : ((polledMessages (detectionWhile d polls).1).filter isTrigger).length = 1 := by
    simpa [detectionLoop, polledMessages] using hone
  rw [hone2, hs] at hw
  simpa [detectionLoop, keywordNotifications] using hw

/-- Witness of C2: `create` on stream 7 with a working bus, then a run that pops one
trigger among other traffic. -/
theorem detectionLoop_single_trigger_witness :
    (RespeakerdKeyWordDetector.create (some 7) [1, 2] [3] goodBus).1 = some sampleDetector ∧
      keywordNotifications (detectionLoop sampleDetector
        [alivePoll none, alivePoll (some otherMessage), alivePoll (some triggerMessage),
          alivePoll none, shutdownPoll]).1 =
      [Event.notifyKeyWordObservers (some 7) "anykeyword" UNSPECIFIED_INDEX
        UNSPECIFIED_INDEX] :=
  ⟨by decide,
    detectionLoop_single_trigger (some 7) [1, 2] [3] goodBus sampleDetector _ (by decide)
      (by decide)⟩

/-- A pass that finds the bus dead polls, notifies ERROR, logs, and breaks. -/
theorem detectionIteration_dead (d : RespeakerdKeyWordDetector) (p : Poll)
    (h : p.busAlive = false) :
    detectionIteration d p =
      ([Event.dbus_connection_read_write d.m_dbus_conn 0 false,
        Event.notifyKeyWordDetectorStateObservers KeyWordDetectorState.ERROR,
        Event.ACSDK_ERROR "readWriteFailed" "bus_alive == FALSE"], false) := by
  simp [detectionIteration, h]

/-- A pass that finds the bus alive goes on, polls once with result true and makes no
state notification. -/
theorem detectionIteration_alive (d : RespeakerdKeyWordDetector) (p : Poll)
    (h : p.busAlive = true) :
    (detectionIteration d p).2 = true ∧ pollResults (detectionIteration d p).1 = [true] ∧
      stateNotifications (detectionIteration d p).1 = [] := by
  unfold detectionIteration
  cases hm : p.popped with
  | none => simp [h, pollResults, stateNotifications]
  | some msg =>
    by_cases ht : dbus_message_is_signal msg "respeakerd.signal" "trigger" = true
    · simp [h, ht, pollResults, stateNotifications]
    · simp [h, ht, pollResults, stateNotifications]

/-- Shape of a run of the loop: either every poll found the bus alive and no state
notification was made, or the loop was left and the trace ends with the failed poll, the
ERROR notification and the log entry, before which every poll found the bus alive and no
state notification was made. -/
theorem detectionWhile_shape (d : RespeakerdKeyWordDetector) (polls : List Poll) :
    ((∀ b ∈ pollResults (detectionWhile d polls).1, b = true) ∧
        stateNotifications (detectionWhile d polls).1 = []) ∨
      ((detectionWhile d polls).2 = true ∧
        ∃ pre, (detectionWhile d polls).1 =
            pre ++ [Event.dbus_connection_read_write d.m_dbus_conn 0 false,
              Event.notifyKeyWordDetectorStateObservers KeyWordDetectorState.ERROR,
              Event.ACSDK_ERROR "readWriteFailed" "bus_alive == FALSE"] ∧
          (∀ b ∈ pollResults pre, b = true) ∧ stateNotifications pre = []) := by
  induction polls with
  | nil => left; simp [detectionWhile, pollResults, stateNotifications]
  | cons p rest ih =>
    unfold detectionWhile
    by_cases hs : p.shuttingDown = true
    · left; simp [hs, pollResults, stateNotifications]
    · cases hb : p.busAlive with
      | false =>
        right
        rw [detectionIteration_dead d p hb]
        simp only [hs, if_false, Bool.false_eq_true]
        exact ⟨trivial, [], by simp, by simp [pollResults], by simp [stateNotifications]⟩
      | true =>
        obtain ⟨hc, hp, hn⟩ := detectionIteration_alive d p hb
        simp only [hs, hc, if_true, if_false, Bool.false_eq_true]
        rcases ih with ⟨h1, h2⟩ | ⟨h1, pre, h2, h3, h4⟩
        · left
          rw [pollResults_append, stateNotifications_append, hp, hn, h2]
          refine ⟨?_, rfl⟩
          intro b hmem
          rcases List.mem_append.1 hmem with hm | hm
          · simpa using hm
          · exact h1 b hm
        · right
          refine ⟨h1, (detectionIteration d p).1 ++ pre, ?_, ?_, ?_⟩
          · rw [h2, List.append_assoc]
          · intro b hmem
            rw [pollResults_append, hp] at hmem
            rcases List.mem_append.1 hmem with hm | hm
            · simpa using hm
            · exact h3 b hm
          · rw [stateNotifications_append, hn, h4]; rfl

/-- The loop itself never notifies ACTIVE. -/
theorem detectionWhile_no_active (d : RespeakerdKeyWordDetector) (polls : List Poll) :
    KeyWordDetectorState.ACTIVE ∉ stateNotifications (detectionWhile d polls).1 := by
  rcases detectionWhile_shape d polls with ⟨_, h2⟩ | ⟨_, pre, h2, _, h4⟩
  · simp [h2]
  · rw [h2, stateNotifications_append, h4]
    simp [stateNotifications]

/-- Membership of a state notification in a trace, in terms of `stateNotifications`. -/
theorem mem_stateNotifications (t : List Event) (s : KeyWordDetectorState) :
    s ∈ stateNotifications t ↔ Event.notifyKeyWordDetectorStateObservers s ∈ t := by
  induction t with
  | nil => simp [stateNotifications]
  | cons e rest ih =>
    have hcons : stateNotifications (e :: rest) =
        stateNotifications [e] ++ stateNotifications rest :=
      stateNotifications_append [e] rest
    rw [hcons, List.mem_append, ih, List.mem_cons]
    cases e <;> simp [stateNotifications]

/-- C3: in every run of `detectionLoop`, whatever the bus delivers and whenever the
shutdown flag is raised, exactly one ACTIVE state notification is made; it is the first
call of the run, so it precedes every keyword notification. -/
theorem detectionLoop_active_once_first (d : RespeakerdKeyWordDetector) (polls : List Poll) :
    (stateNotifications (detectionLoop d polls).1).count KeyWordDetectorState.ACTIVE = 1 ∧
      ∃ rest, (detectionLoop d polls).1 =
          Event.notifyKeyWordDetectorStateObservers KeyWordDetectorState.ACTIVE :: rest ∧
        Event.notifyKeyWordDetectorStateObservers KeyWordDetectorState.ACTIVE ∉ rest ∧
        keywordNotifications (detectionLoop d polls).1 = keywordNotifications rest ∧
        ∀ (pre post : List Event) (stream : Option AudioInputStream) (keyword : String)
          (b e : Nat),
          (detectionLoop d polls).1 =
              pre ++ Event.notifyKeyWordObservers stream keyword b e :: post →
            Event.notifyKeyWordDetectorStateObservers KeyWordDetectorState.ACTIVE ∈ pre := by
  have hno := detectionWhile_no_active d polls
  refine ⟨?_, (detectionWhile d polls).1, rfl, ?_, ?_, ?_⟩
  · have hcons : stateNotifications (detectionLoop d polls).1 =
        KeyWordDetectorState.ACTIVE :: stateNotifications (detectionWhile d polls).1 := by
      simp [detectionLoop, stateNotifications]
    rw [hcons, List.count_cons_self, List.count_eq_zero_of_not_mem hno]
  · exact fun h => hno ((mem_stateNotifications _ _).2 h)
  · simp [detectionLoop, keywordNotifications]
  · intro pre post stream keyword b e h
    cases pre with
    | nil => simp [detectionLoop] at h
    | cons x pre1 =>
      simp only [detectionLoop, List.cons_append, List.cons.injEq] at h
      rw [← h.1]
      exact List.mem_cons_self _ _

/-- Witness of C3: a run with a trigger before the flag is raised has its ACTIVE
notification in front of the keyword notification. -/
theorem detectionLoop_active_once_first_witness :
    (stateNotifications (detectionLoop sampleDetector
        [alivePoll (some triggerMessage), shutdownPoll]).1).count KeyWordDetectorState.ACTIVE
        = 1 ∧
      Event.notifyKeyWordDetectorStateObservers KeyWordDetectorState.ACTIVE ∈
        [Event.notifyKeyWordDetectorStateObservers KeyWordDetectorState.ACTIVE,
          Event.dbus_connection_read_write (some 5) 0 true,
          Event.dbus_connection_pop_message (some 5) (some triggerMessage)] :=
  match detectionLoop_active_once_first sampleDetector
      [alivePoll (some triggerMessage), shutdownPoll] with
  | ⟨h1, _, _, _, _, h5⟩ =>
    ⟨h1, h5 _ [Event.dbus_message_unref triggerMessage] (some 7) "anykeyword"
      UNSPECIFIED_INDEX UNSPECIFIED_INDEX (by decide)⟩

/-- C4: when a poll of a run of `detectionLoop` reports the bus dead, the loop is left,
the run makes exactly one ERROR notification, and the trace ends with that failed poll, the
ERROR notification and the log entry, so that no poll, pop or notification follows; before
them every poll found the bus alive and no ERROR was notified. A run in which every poll
found the bus alive makes no ERROR notification. -/
theorem detectionLoop_bus_down_terminal (d : RespeakerdKeyWordDetector) (polls : List Poll) :
    (false ∈ pollResults (detectionLoop d polls).1 →
        (detectionLoop d polls).2 = true ∧
        (stateNotifications (detectionLoop d polls).1).count KeyWordDetectorState.ERROR = 1 ∧
        ∃ pre, (detectionLoop d polls).1 =
            pre ++ [Event.dbus_connection_read_write d.m_dbus_conn 0 false,
              Event.notifyKeyWordDetectorStateObservers KeyWordDetectorState.ERROR,
              Event.ACSDK_ERROR "readWriteFailed" "bus_alive == FALSE"] ∧
          (∀ b ∈ pollResults pre, b = true) ∧
          KeyWordDetectorState.ERROR ∉ stateNotifications pre) ∧
      ((∀ b ∈ pollResults (detectionLoop d polls).1, b = true) →
        KeyWordDetectorState.ERROR ∉ stateNotifications (detectionLoop d polls).1) := by
  have hpoll : pollResults (detectionLoop d polls).1 = pollResults (detectionWhile d polls).1 := by
    simp [detectionLoop, pollResults]
  have hstate : stateNotifications (detectionLoop d polls).1 =
      KeyWordDetectorState.ACTIVE :: stateNotifications (detectionWhile d polls).1 := by
    simp [detectionLoop, stateNotifications]
  rw [hpoll, hstate]
  rcases detectionWhile_shape d polls with ⟨h1, h2⟩ | ⟨h1, pre, h2, h3, h4⟩
  · refine ⟨fun hf => ?_, fun _ => ?_⟩
    · exact absurd (h1 false hf) (by decide)
    · rw [h2]; decide
  · have hmem : false ∈ pollResults (detectionWhile d polls).1 := by
      rw [h2, pollResults_append]
      simp [pollResults]
    refine ⟨fun _ => ⟨h1, ?_, ?_⟩, fun hall => absurd (hall false hmem) (by decide)⟩
    · rw [h2, stateNotifications_append, h4]
      simp [stateNotifications]
    · refine ⟨Event.notifyKeyWordDetectorStateObservers KeyWordDetectorState.ACTIVE :: pre,
        ?_, ?_, ?_⟩
      · simp [detectionLoop, h2]
      · intro b hb
        apply h3 b
        simpa [pollResults] using hb
      · have hpre : stateNotifications
            (Event.notifyKeyWordDetectorStateObservers KeyWordDetectorState.ACTIVE :: pre) =
            KeyWordDetectorState.ACTIVE :: stateNotifications pre := by
          simp [stateNotifications]
        rw [hpre, h4]; decide

/-- Witness of C4: the bus dies in the second pass, the third observation is never
consulted; and a run that only sees the bus alive notifies no ERROR. -/
theorem detectionLoop_bus_down_terminal_witness :
    (detectionLoop sampleDetector
        [alivePoll (some triggerMessage), deadPoll, alivePoll (some triggerMessage)]).2 = true ∧
      (stateNotifications (detectionLoop sampleDetector
        [alivePoll (some triggerMessage), deadPoll, alivePoll (some triggerMessage)]).1).count
          KeyWordDetectorState.ERROR = 1 ∧
      KeyWordDetectorState.ERROR ∉ stateNotifications (detectionLoop sampleDetector
        [alivePoll (some triggerMessage), alivePoll none, shutdownPoll]).1 :=
  have h := (detectionLoop_bus_down_terminal sampleDetector
    [alivePoll (some triggerMessage), deadPoll, alivePoll (some triggerMessage)]).1 (by decide)
  ⟨h.1, h.2.1,
    (detectionLoop_bus_down_terminal sampleDetector
      [alivePoll (some triggerMessage), alivePoll none, shutdownPoll]).2 (by decide)⟩

/-! ## Construction -/

/-- C9: `create` called with a null stream returns null for every choice of observer sets
and every behaviour of the bus, and the only call it makes is the log entry: the
constructor does not run, `init` is not entered, `dbus_bus_get` is not called and the
thread is not started. -/
theorem create_null_stream (keyWordObservers keyWordDetectorStateObservers : List Observer)
    (env : BusEnv) :
    RespeakerdKeyWordDetector.create none keyWordObservers keyWordDetectorStateObservers env =
        (none, [Event.ACSDK_ERROR "createFailed" "nullStream"]) ∧
      (∀ s, Event.construct s ∉ (RespeakerdKeyWordDetector.create none keyWordObservers
        keyWordDetectorStateObservers env).2) ∧
      Event.init ∉ (RespeakerdKeyWordDetector.create none keyWordObservers
        keyWordDetectorStateObservers env).2 ∧
      (∀ c b, Event.dbus_bus_get c b ∉ (RespeakerdKeyWordDetector.create none keyWordObservers
        keyWordDetectorStateObservers env).2) ∧
      Event.threadStart ∉ (RespeakerdKeyWordDetector.create none keyWordObservers
        keyWordDetectorStateObservers env).2 := by
  simp [RespeakerdKeyWordDetector.create]

/-- The gate of `init`: it returns false without starting the thread when `dbus_bus_get`
returned no handle or `dbus_bus_add_match` set the error, and `create` then returns null
with no thread started; it returns true exactly when a handle was returned and the match
rule was accepted, and exactly then it starts the thread, after clearing the flag. -/
theorem init_gate (stream : Option AudioInputStream)
    (keyWordObservers keyWordDetectorStateObservers : List Observer)
    (d : RespeakerdKeyWordDetector) (env : BusEnv) :
    ((env.busGetConn = none ∨ env.addMatchError = true) →
        (d.init env).1 = false ∧ Event.threadStart ∉ (d.init env).2.2 ∧
        (d.init env).2.1.m_detectionThread = d.m_detectionThread ∧
        (RespeakerdKeyWordDetector.create stream keyWordObservers
          keyWordDetectorStateObservers env).1 = none ∧
        Event.threadStart ∉ (RespeakerdKeyWordDetector.create stream keyWordObservers
          keyWordDetectorStateObservers env).2) ∧
      ((d.init env).1 = true ↔ (env.busGetConn ≠ none ∧ env.addMatchError = false)) ∧
      ((d.init env).1 = true ↔ Event.threadStart ∈ (d.init env).2.2) ∧
      ((d.init env).1 = true →
        (d.init env).2.1.m_detectionThread = true ∧
        (d.init env).2.1.m_isShuttingDown = false) := by
  obtain ⟨conn, e1, e2⟩ := env
  cases conn <;> cases e1 <;> cases e2 <;> cases stream <;>
    simp [RespeakerdKeyWordDetector.init, RespeakerdKeyWordDetector.create,
      RespeakerdKeyWordDetector.new, RespeakerdKeyWordDetector.destroy]

/-- C10: for every answer of the bus that libdbus can give, that is, with the error of
`dbus_bus_get` set only together with a null handle: if connecting fails (the error is
set or no handle is returned) or the match rule is rejected, `init` returns false without
starting the loop thread, and `create` returns null with no thread started; `init`
returns true only when the connect step reported no error and returned a handle and the
match rule was accepted, and exactly when it returns true it starts the thread, after
clearing the shutdown flag. -/
theorem init_fails_on_connect_or_subscribe_failure (stream : Option AudioInputStream)
    (keyWordObservers keyWordDetectorStateObservers : List Observer)
    (d : RespeakerdKeyWordDetector) (env : BusEnv)
    (hbus : env.busGetError = true → env.busGetConn = none) :
    ((env.busGetError = true ∨ env.busGetConn = none ∨ env.addMatchError = true) →
        (d.init env).1 = false ∧ Event.threadStart ∉ (d.init env).2.2 ∧
        (d.init env).2.1.m_detectionThread = d.m_detectionThread ∧
        (RespeakerdKeyWordDetector.create stream keyWordObservers
          keyWordDetectorStateObservers env).1 = none ∧
        Event.threadStart ∉ (RespeakerdKeyWordDetector.create stream keyWordObservers
          keyWordDetectorStateObservers env).2) ∧
      ((d.init env).1 = true →
        env.busGetError = false ∧ env.busGetConn ≠ none ∧ env.addMatchError = false) ∧
      ((env.busGetError = false ∧ env.busGetConn ≠ none ∧ env.addMatchError = false) →
        (d.init env).1 = true) ∧
      ((d.init env).1 = true ↔ Event.threadStart ∈ (d.init env).2.2) ∧
      ((d.init env).1 = true →
        (d.init env).2.1.m_detectionThread = true ∧
        (d.init env).2.1.m_isShuttingDown = false) := by
  have hgate := init_gate stream keyWordObservers keyWordDetectorStateObservers d env
  refine ⟨?_, ?_, ?_, hgate.2.2.1, hgate.2.2.2⟩
  · intro hfail
    apply hgate.1
    rcases hfail with h | h | h
    · exact Or.inl (hbus h)
    · exact Or.inl h
    · exact Or.inr h
  · intro hok
    obtain ⟨hconn, hmatch⟩ := hgate.2.1.1 hok
    refine ⟨?_, hconn, hmatch⟩
    cases he : env.busGetError with
    | false => rfl
    | true => exact absurd (hbus he) hconn
  · intro hgood
    exact hgate.2.1.2 ⟨hgood.2.1, hgood.2.2⟩

/-- Witness of C10: a bus that reports an error and returns no handle, a bus that
rejects the match rule, and a working bus. -/
theorem init_fails_on_connect_or_subscribe_failure_witness :
    (noHandleBus.busGetError = true → noHandleBus.busGetConn = none) ∧
      ((RespeakerdKeyWordDetector.new (some 7) [1, 2] [3]).init noHandleBus).1 = false ∧
      (RespeakerdKeyWordDetector.create (some 7) [1, 2] [3] noHandleBus).1 = none ∧
      ((RespeakerdKeyWordDetector.new (some 7) [1, 2] [3]).init rejectingBus).1 = false ∧
      ((RespeakerdKeyWordDetector.new (some 7) [1, 2] [3]).init goodBus).1 = true ∧
      ((RespeakerdKeyWordDetector.new (some 7) [1, 2] [3]).init goodBus).2.1.m_detectionThread
        = true :=
  have h1 := (init_fails_on_connect_or_subscribe_failure (some 7) [1, 2] [3]
    (RespeakerdKeyWordDetector.new (some 7) [1, 2] [3]) noHandleBus (by decide)).1
    (Or.inl (by decide))
  have h2 := (init_fails_on_connect_or_subscribe_failure (some 7) [1, 2] [3]
    (RespeakerdKeyWordDetector.new (some 7) [1, 2] [3]) rejectingBus (by decide)).1
    (Or.inr (Or.inr (by decide)))
  have h3 := init_fails_on_connect_or_subscribe_failure (some 7) [1, 2] [3]
    (RespeakerdKeyWordDetector.new (some 7) [1, 2] [3]) goodBus (by decide)
  have h4 := h3.2.2.1 ⟨by decide, by decide, by decide⟩
  ⟨by decide, h1.1, h1.2.2.2.1, h2.1, h4, (h3.2.2.2.2 h4).1⟩

/-! ## One pass of the loop -/

/-- C15: a pass of the loop whose poll reports the bus alive calls pop_message exactly
once, so it pops at most one message. If a message was popped, the pass releases it
exactly once, as its last call and so before the poll of the next pass, and does not
sleep. If no message was available, the pass sleeps once for 10 ms, releases nothing and
notifies nobody. The poll is the first call of the pass and its only poll. -/
theorem detectionIteration_pop_release_sleep (d : RespeakerdKeyWordDetector) (p : Poll)
    (h : p.busAlive = true) :
    popResults (detectionIteration d p).1 = [p.popped] ∧
      (polledMessages (detectionIteration d p).1).length ≤ 1 ∧
      (detectionIteration d p).1.head? =
        some (Event.dbus_connection_read_write d.m_dbus_conn 0 true) ∧
      pollResults (detectionIteration d p).1 = [true] ∧
      (∀ m, p.popped = some m →
        releasedMessages (detectionIteration d p).1 = [m] ∧
        (detectionIteration d p).1.getLast? = some (Event.dbus_message_unref m) ∧
        sleeps (detectionIteration d p).1 = []) ∧
      (p.popped = none →
        sleeps (detectionIteration d p).1 = [10] ∧
        releasedMessages (detectionIteration d p).1 = [] ∧
        keywordNotifications (detectionIteration d p).1 = [] ∧
        stateNotifications (detectionIteration d p).1 = []) := by
  unfold detectionIteration
  cases hm : p.popped with
  | none =>
    simp [h, popResults, polledMessages, pollResults, sleeps, releasedMessages,
      keywordNotifications, stateNotifications]
  | some msg =>
    by_cases ht : dbus_message_is_signal msg "respeakerd.signal" "trigger" = true
    · simp [h, ht, popResults, polledMessages, pollResults, sleeps, releasedMessages]
    · simp [h, ht, popResults, polledMessages, pollResults, sleeps, releasedMessages]

/-- Witness of C15: a pass that pops a trigger and a pass that finds the queue empty. -/
theorem detectionIteration_pop_release_sleep_witness :
    releasedMessages (detectionIteration sampleDetector (alivePoll (some triggerMessage))).1 =
        [triggerMessage] ∧
      sleeps (detectionIteration sampleDetector (alivePoll (some triggerMessage))).1 = [] ∧
      sleeps (detectionIteration sampleDetector (alivePoll none)).1 = [10] ∧
      keywordNotifications (detectionIteration sampleDetector (alivePoll none)).1 = [] :=
  have h1 := (detectionIteration_pop_release_sleep sampleDetector
    (alivePoll (some triggerMessage)) rfl).2.2.2.2.1 triggerMessage rfl
  have h2 := (detectionIteration_pop_release_sleep sampleDetector (alivePoll none)
    rfl).2.2.2.2.2 rfl
  ⟨h1.1, h1.2.2, h2.1, h2.2.2.1⟩

/-! ## Shutdown -/

/-- One step of the `while` loop, spelled out. -/
theorem detectionWhile_cons (d : RespeakerdKeyWordDetector) (p : Poll) (rest : List Poll) :
    detectionWhile d (p :: rest) =
      if p.shuttingDown then ([], true)
      else if (detectionIteration d p).2 then
        ((detectionIteration d p).1 ++ (detectionWhile d rest).1, (detectionWhile d rest).2)
      else ((detectionIteration d p).1, true) := by
  simp [detectionWhile]

/-- A loop that has been left makes no further call, whatever is observed afterwards; a
loop that is still running goes on with the further observations. -/
theorem detectionWhile_append (d : RespeakerdKeyWordDetector) (a b : List Poll) :
    detectionWhile d (a ++ b) =
      if (detectionWhile d a).2 then detectionWhile d a
      else ((detectionWhile d a).1 ++ (detectionWhile d b).1, (detectionWhile d b).2) := by
  induction a with
  | nil => simp [detectionWhile]
  | cons p rest ih =>
    rw [List.cons_append, detectionWhile_cons, detectionWhile_cons, ih]
    by_cases hs : p.shuttingDown = true
    · simp [hs]
    · by_cases hc : (detectionIteration d p).2 = true
      · by_cases hr : (detectionWhile d rest).2 = true
        · simp [hs, hc, hr]
        · simp [hs, hc, hr, List.append_assoc]
      · simp [hs, hc]

/-- The first read of the raised flag ends the loop without a call. -/
theorem detectionWhile_raised (d : RespeakerdKeyWordDetector) (later : List Poll)
    (h : later ≠ []) :
    detectionWhile d (later.map fun p => { p with shuttingDown := true }) = ([], true) := by
  cases later with
  | nil => exact absurd rfl h
  | cons p rest => simp [detectionWhile]

/-- C14: the destructor raises the shutdown flag and joins the loop thread exactly when
it is joinable. Once the loop condition is read after the flag was raised, the loop has
been left, its trace is the trace of the passes that started before, and no observation
that follows adds a call to it: no notification is made after the join has returned.
The same holds for a loop that was left before, as it is after the bus went down:
whatever follows adds no call, so the join finds the thread finished. -/
theorem destructor_stops_notifications (d : RespeakerdKeyWordDetector)
    (running later more : List Poll) (hlater : later ≠ []) :
    (d.destroy).1.m_isShuttingDown = true ∧
      (d.destroy).2 = (if d.m_detectionThread then [Event.threadJoin] else []) ∧
      (detectionLoop d (observationsUntilShutdown running later)).2 = true ∧
      (detectionLoop d (observationsUntilShutdown running later)).1 =
        (detectionLoop d (running.map fun p => { p with shuttingDown := false })).1 ∧
      detectionLoop d (observationsUntilShutdown running later ++ more) =
        detectionLoop d (observationsUntilShutdown running later) ∧
      ((detectionLoop d running).2 = true →
        detectionLoop d (running ++ more) = detectionLoop d running) := by
  have hraised := detectionWhile_raised d later hlater
  have hrun : detectionWhile d (observationsUntilShutdown running later) =
      ((detectionWhile d (running.map fun p => { p with shuttingDown := false })).1, true) := by
    unfold observationsUntilShutdown
    rw [detectionWhile_append, hraised]
    by_cases hr :
        (detectionWhile d (running.map fun p => { p with shuttingDown := false })).2 = true
    · simp only [hr, if_true]
      exact Prod.ext rfl hr
    · simp [hr]
  refine ⟨?_, ?_, ?_, ?_, ?_, ?_⟩
  · unfold RespeakerdKeyWordDetector.destroy
    by_cases hj : d.m_detectionThread = true <;> simp [hj]
  · unfold RespeakerdKeyWordDetector.destroy
    by_cases hj : d.m_detectionThread = true <;> simp [hj]
  · simp [detectionLoop, hrun]
  · simp [detectionLoop, hrun]
  · have happ := detectionWhile_append d (observationsUntilShutdown running later) more
    rw [hrun] at happ
    simp only [if_true] at happ
    simp [detectionLoop, happ, hrun]
  · intro hleft
    have hleft2 : (detectionWhile d running).2 = true := by simpa [detectionLoop] using hleft
    have happ := detectionWhile_append d running more
    simp only [hleft2, if_true] at happ
    simp [detectionLoop, happ]

/-- Witness of C14: the flag is raised while a pass with a trigger is under way and
another trigger is queued behind it; and a loop that the dead bus has ended. -/
theorem destructor_stops_notifications_witness :
    (sampleDetector.destroy).2 = [Event.threadJoin] ∧
      (detectionLoop sampleDetector
        (observationsUntilShutdown [alivePoll (some triggerMessage)]
          [alivePoll (some triggerMessage)])).2 = true ∧
      (keywordNotifications (detectionLoop sampleDetector
        (observationsUntilShutdown [alivePoll (some triggerMessage)]
          [alivePoll (some triggerMessage)] ++ [alivePoll (some triggerMessage)])).1).length
        = 1 ∧
      detectionLoop sampleDetector ([deadPoll] ++ [alivePoll (some triggerMessage)]) =
        detectionLoop sampleDetector [deadPoll] :=
  have h := destructor_stops_notifications sampleDetector [alivePoll (some triggerMessage)]
    [alivePoll (some triggerMessage)] [alivePoll (some triggerMessage)] (by decide)
  have h2 := destructor_stops_notifications sampleDetector [deadPoll]
    [alivePoll none] [alivePoll (some triggerMessage)] (by decide)
  ⟨h.2.1, h.2.2.1, by rw [h.2.2.2.2.1]; decide, h2.2.2.2.2.2 (by decide)⟩

/-! ## Fan-out to the keyword observers -/

theorem keywordCallbacks_append (d : RespeakerdKeyWordDetector) (a b : List Event) :
    keywordCallbacks d (a ++ b) = keywordCallbacks d a ++ keywordCallbacks d b := by
  induction a with
  | nil => simp [keywordCallbacks]
  | cons e rest ih =>
    cases e <;> simp [keywordCallbacks, ih]

theorem notifiedObservers_append (a b : List Callback) :
    notifiedObservers (a ++ b) = notifiedObservers a ++ notifiedObservers b := by
  simp [notifiedObservers]

/-- The observers reached by one notification are the set, in the order of its walk. -/
theorem notifiedObservers_notify (observers : List Observer)
    (stream : Option AudioInputStream) (keyword : String) (b e : Nat) :
    notifiedObservers (notifyKeyWordObservers observers stream keyword b e) = observers := by
  induction observers with
  | nil => rfl
  | cons o rest ih =>
    simp only [notifyKeyWordObservers, notifiedObservers, List.map_cons, List.map_map] at ih ⊢
    rw [ih]

/-- The function `init` leaves the observer set of the base class alone. -/
theorem init_observers (d : RespeakerdKeyWordDetector) (env : BusEnv) :
    (d.init env).2.1.m_keyWordObservers = d.m_keyWordObservers := by
  obtain ⟨c, e1, e2⟩ := env
  cases c <;> cases e1 <;> cases e2 <;> rfl

/-- A detector handed back by `create` holds the keyword observer set it was created
with. -/
theorem create_observers (stream : Option AudioInputStream)
    (keyWordObservers keyWordDetectorStateObservers : List Observer) (env : BusEnv)
    (d : RespeakerdKeyWordDetector)
    (h : (RespeakerdKeyWordDetector.create stream keyWordObservers
      keyWordDetectorStateObservers env).1 = some d) :
    d.m_keyWordObservers = keyWordObservers := by
  cases stream with
  | none => simp [RespeakerdKeyWordDetector.create] at h
  | some st =>
    simp only [RespeakerdKeyWordDetector.create] at h
    split at h
    · simp at h
    · simp only [Option.some.injEq] at h
      subst h
      exact init_observers _ env

/-- In one pass every observer is called as often as it occurs in the walk of the set,
once for a popped trigger and not at all otherwise. -/
theorem detectionIteration_callback_count (d : RespeakerdKeyWordDetector) (p : Poll)
    (o : Observer) :
    (notifiedObservers (keywordCallbacks d (detectionIteration d p).1)).count o =
      ((polledMessages (detectionIteration d p).1).filter isTrigger).length *
        d.m_keyWordObservers.count o := by
  unfold detectionIteration
  cases hb : p.busAlive with
  | false => simp [keywordCallbacks, polledMessages, notifiedObservers]
  | true =>
    cases hm : p.popped with
    | none => simp [keywordCallbacks, polledMessages, notifiedObservers]
    | some msg =>
      by_cases ht : dbus_message_is_signal msg "respeakerd.signal" "trigger" = true
      · simp [keywordCallbacks, polledMessages, isTrigger, ht, notifiedObservers_notify]
      · simp [keywordCallbacks, polledMessages, isTrigger, ht, notifiedObservers]

theorem detectionWhile_callback_count (d : RespeakerdKeyWordDetector) (polls : List Poll)
    (o : Observer) :
    (notifiedObservers (keywordCallbacks d (detectionWhile d polls).1)).count o =
      ((polledMessages (detectionWhile d polls).1).filter isTrigger).length *
        d.m_keyWordObservers.count o := by
  induction polls with
  | nil => simp [detectionWhile, keywordCallbacks, polledMessages, notifiedObservers]
  | cons p rest ih =>
    rw [detectionWhile_cons]
    by_cases hs : p.shuttingDown = true
    · simp [hs, keywordCallbacks, polledMessages, notifiedObservers]
    · by_cases hc : (detectionIteration d p).2 = true
      · simp only [hs, hc, if_true, if_false, Bool.false_eq_true]
        rw [keywordCallbacks_append, notifiedObservers_append, List.count_append,
          polledMessages_append, List.filter_append, List.length_append, ih,
          detectionIteration_callback_count, Nat.add_mul]
      · simp only [hs, hc, if_false, Bool.false_eq_true]
        exact detectionIteration_callback_count d p o

/-- Counterexample to C13 as stated: observer 1 is registered before observer 2, the
unordered set walks 2 before 1, and for a trigger the detector that `create` returns
calls observer 2 first, which is not the order of registration. -/
theorem keyword_observers_not_in_registration_order :
    reversedSet.valid ∧
      (RespeakerdKeyWordDetector.create (some 7) reversedSet.iteration [3] goodBus).1 =
        some reversedDetector ∧
      notifiedObservers (keywordCallbacks reversedDetector
        (detectionIteration reversedDetector (alivePoll (some triggerMessage))).1) = [2, 1] ∧
      notifiedObservers (keywordCallbacks reversedDetector
        (detectionIteration reversedDetector (alivePoll (some triggerMessage))).1) ≠
        reversedSet.registered := by
  refine ⟨⟨by decide, by decide, by decide⟩, by decide, by decide, by decide⟩

/-- C13 (amended): for the detector that `create` returns for an unordered set of
keyword observers, every registered observer is called exactly once for every trigger
that a run of `detectionLoop` pops, and a pass that pops a trigger calls the observers in
the order in which the set is walked, with the stream given to `create`, the label
anykeyword and the unspecified index twice. -/
theorem keyword_observers_each_once (s : ObserverSet) (hs : s.valid)
    (stream : Option AudioInputStream) (keyWordDetectorStateObservers : List Observer)
    (env : BusEnv) (d : RespeakerdKeyWordDetector)
    (hcreate : (RespeakerdKeyWordDetector.create stream s.iteration
      keyWordDetectorStateObservers env).1 = some d) (polls : List Poll) :
    (∀ o ∈ s.registered,
        (notifiedObservers (keywordCallbacks d (detectionLoop d polls).1)).count o =
          ((polledMessages (detectionLoop d polls).1).filter isTrigger).length) ∧
      ∀ (p : Poll) (m : DBusMessage), p.busAlive = true → p.popped = some m →
        isTrigger m = true →
        keywordCallbacks d (detectionIteration d p).1 =
            s.iteration.map (fun o =>
              Callback.onKeyWordDetected o stream "anykeyword" UNSPECIFIED_INDEX
                UNSPECIFIED_INDEX) ∧
          notifiedObservers (keywordCallbacks d (detectionIteration d p).1) = s.iteration ∧
          ∀ o ∈ s.registered,
            (notifiedObservers (keywordCallbacks d (detectionIteration d p).1)).count o = 1 := by
  have hobs := create_observers stream s.iteration keyWordDetectorStateObservers env d hcreate
  have hstream := (create_stream stream s.iteration keyWordDetectorStateObservers env d
    hcreate).1
  have hone : ∀ o ∈ s.registered, d.m_keyWordObservers.count o = 1 := by
    intro o ho
    rw [hobs]
    exact List.count_eq_one_of_mem hs.1 (hs.2.2 o ho)
  constructor
  · intro o ho
    have h := detectionWhile_callback_count d polls o
    rw [hone o ho, Nat.mul_one] at h
    simpa [detectionLoop, keywordCallbacks, polledMessages] using h
  · intro p m hb hm ht
    have ht2 : dbus_message_is_signal m "respeakerd.signal" "trigger" = true := ht
    have hbody : keywordCallbacks d (detectionIteration d p).1 =
        s.iteration.map (fun o =>
          Callback.onKeyWordDetected o stream "anykeyword" UNSPECIFIED_INDEX
            UNSPECIFIED_INDEX) := by
      simp [detectionIteration, hb, hm, ht2, keywordCallbacks, notifyKeyWordObservers, hobs,
        hstream]
    refine ⟨hbody, ?_, ?_⟩
    · rw [hbody]
      exact notifiedObservers_notify s.iteration stream "anykeyword" UNSPECIFIED_INDEX
        UNSPECIFIED_INDEX
    · intro o ho
      rw [hbody]
      have hn := notifiedObservers_notify s.iteration stream "anykeyword" UNSPECIFIED_INDEX
        UNSPECIFIED_INDEX
      unfold notifyKeyWordObservers at hn
      rw [hn]
      exact List.count_eq_one_of_mem hs.1 (hs.2.2 o ho)

/-- Witness of C13 (amended): the set registered as 1, 2 and walked as 2, 1; in a run
with two triggers observer 1 is called twice. -/
theorem keyword_observers_each_once_witness :
    reversedSet.valid ∧
      (notifiedObservers (keywordCallbacks reversedDetector (detectionLoop reversedDetector
        [alivePoll (some triggerMessage), alivePoll (some otherMessage),
          alivePoll (some triggerMessage)]).1)).count 1 = 2 ∧
      notifiedObservers (keywordCallbacks reversedDetector
        (detectionIteration reversedDetector (alivePoll (some triggerMessage))).1) = [2, 1] :=
  have hv : reversedSet.valid := ⟨by decide, by decide, by decide⟩
  have h := keyword_observers_each_once reversedSet hv (some 7) [3] goodBus reversedDetector
    (by decide) [alivePoll (some triggerMessage), alivePoll (some otherMessage),
      alivePoll (some triggerMessage)]
  ⟨hv, (h.1 1 (by decide)).trans (by decide),
    (h.2 (alivePoll (some triggerMessage)) triggerMessage rfl rfl (by decide)).2.1⟩

end kwd

namespace sampleApp

/-! ## State signals -/

theorem signals_append (a b : List UIEvent) : signals (a ++ b) = signals a ++ signals b := by
  simp [signals]

/-- The function `printState` requests no signal. -/
theorem signals_printState (ui : UIManager) : signals ui.printState = [] := by
  obtain ⟨ds, cs, conn⟩ := ui
  cases ds <;> cases cs <;> simp [UIManager.printState, signals]

/-- After a report the recorded dialog state is the reported one. -/
theorem onDialogUXStateChanged_records (ui : UIManager) (s : DialogUXState) :
    (ui.onDialogUXStateChanged s).1.m_dialogState = s := by
  obtain ⟨ds, cs, conn⟩ := ui
  cases ds <;> cases s <;> simp [UIManager.onDialogUXStateChanged]

/-- One report requests at most one signal. -/
theorem onDialogUXStateChanged_at_most_one (ui : UIManager) (s : DialogUXState) :
    (signals (ui.onDialogUXStateChanged s).2).length ≤ 1 := by
  unfold UIManager.onDialogUXStateChanged
  by_cases h : s = ui.m_dialogState
  · simp [h, signals]
  · cases s <;> simp [h, signals_append, signals_printState] <;> simp [signals]

/-- C5: a report of the dialog state that is already recorded makes no call at all, so
it requests no signal, and leaves the object unchanged; two reports of the same state in
a row request at most one signal together. -/
theorem onDialogUXStateChanged_same_state (ui : UIManager) (s : DialogUXState) :
    (s = ui.m_dialogState →
        ui.onDialogUXStateChanged s = (ui, []) ∧
        signals (ui.onDialogUXStateChanged s).2 = [] ∧
        (ui.onDialogUXStateChanged s).1.m_dialogState = ui.m_dialogState) ∧
      signals ((ui.onDialogUXStateChanged s).1.onDialogUXStateChanged s).2 = [] ∧
      (signals (ui.reportDialogStates [s, s]).2).length ≤ 1 := by
  have hsame : ∀ u : UIManager, u.onDialogUXStateChanged u.m_dialogState = (u, []) := by
    intro u; simp [UIManager.onDialogUXStateChanged]
  have hsecond : (ui.onDialogUXStateChanged s).1.onDialogUXStateChanged s =
      ((ui.onDialogUXStateChanged s).1, []) := by
    have h := hsame (ui.onDialogUXStateChanged s).1
    rwa [onDialogUXStateChanged_records] at h
  refine ⟨?_, ?_, ?_⟩
  · intro h
    subst h
    rw [hsame]
    exact ⟨rfl, rfl, rfl⟩
  · rw [hsecond]; rfl
  · simp only [UIManager.reportDialogStates, hsecond, List.append_nil]
    exact onDialogUXStateChanged_at_most_one ui s

/-- Witness of C5: Listening reported to an object that has recorded Listening. -/
theorem onDialogUXStateChanged_same_state_witness :
    (connectedUI DialogUXState.LISTENING).onDialogUXStateChanged DialogUXState.LISTENING =
      (connectedUI DialogUXState.LISTENING, []) :=
  ((onDialogUXStateChanged_same_state (connectedUI DialogUXState.LISTENING)
    DialogUXState.LISTENING).1 rfl).1

/-- The signals of one report: none for the recorded state, otherwise the one signal of
the reported state (none for FINISHED). -/
theorem signals_onDialogUXStateChanged (ui : UIManager) (s : DialogUXState) :
    signals (ui.onDialogUXStateChanged s).2 =
      if s = ui.m_dialogState then []
      else if s = DialogUXState.IDLE then ["on_idle"]
      else if s = DialogUXState.LISTENING then ["on_listen"]
      else if s = DialogUXState.THINKING then ["on_think"]
      else if s = DialogUXState.SPEAKING then ["on_speak"]
      else [] := by
  unfold UIManager.onDialogUXStateChanged
  by_cases h : s = ui.m_dialogState
  · simp [h, signals]
  · cases s <;> simp [h, signals_append, signals_printState] <;> simp [signals]

/-- Counterexample to C6 as stated: when Idle is the recorded state before the first
report, the reports Idle, Idle, Listening, Listening, Idle request two signals, on_listen
and on_idle, not three. -/
theorem reportDialogStates_from_idle_two_signals :
    signals ((connectedUI DialogUXState.IDLE).reportDialogStates
        [DialogUXState.IDLE, DialogUXState.IDLE, DialogUXState.LISTENING,
          DialogUXState.LISTENING, DialogUXState.IDLE]).2 = ["on_listen", "on_idle"] ∧
      signals ((connectedUI DialogUXState.IDLE).reportDialogStates
        [DialogUXState.IDLE, DialogUXState.IDLE, DialogUXState.LISTENING,
          DialogUXState.LISTENING, DialogUXState.IDLE]).2 ≠
        ["on_idle", "on_listen", "on_idle"] := by
  refine ⟨by decide, by decide⟩

/-- C6 (amended): the reports Idle, Idle, Listening, Listening, Idle fed in order request
exactly the three signals on_idle, on_listen, on_idle, in that order, whenever the dialog
state recorded before the first report is not Idle; when it is Idle the first report is
suppressed as well and the signals are on_listen, on_idle. -/
theorem reportDialogStates_idle_listening (ui : UIManager) :
    (ui.m_dialogState ≠ DialogUXState.IDLE →
        signals (ui.reportDialogStates
          [DialogUXState.IDLE, DialogUXState.IDLE, DialogUXState.LISTENING,
            DialogUXState.LISTENING, DialogUXState.IDLE]).2 =
          ["on_idle", "on_listen", "on_idle"]) ∧
      (ui.m_dialogState = DialogUXState.IDLE →
        signals (ui.reportDialogStates
          [DialogUXState.IDLE, DialogUXState.IDLE, DialogUXState.LISTENING,
            DialogUXState.LISTENING, DialogUXState.IDLE]).2 = ["on_listen", "on_idle"]) := by
  constructor
  · intro h
    have h1 : ¬ DialogUXState.IDLE = ui.m_dialogState := fun e => h e.symm
    simp [UIManager.reportDialogStates, signals_append, signals_onDialogUXStateChanged,
      onDialogUXStateChanged_records, h1]
  · intro h
    simp [UIManager.reportDialogStates, signals_append, signals_onDialogUXStateChanged,
      onDialogUXStateChanged_records, h]

/-- Witness of C6 (amended): the reports start from a recorded Speaking state. -/
theorem reportDialogStates_idle_listening_witness :
    signals ((connectedUI DialogUXState.SPEAKING).reportDialogStates
        [DialogUXState.IDLE, DialogUXState.IDLE, DialogUXState.LISTENING,
          DialogUXState.LISTENING, DialogUXState.IDLE]).2 =
      ["on_idle", "on_listen", "on_idle"] :=
  (reportDialogStates_idle_listening (connectedUI DialogUXState.SPEAKING)).1 (by decide)

/-- C7: a report of Idle, Listening, Thinking or Speaking that differs from the recorded
dialog state requests exactly one signal, on_idle, on_listen, on_think or on_speak
respectively, and records the reported state, leaving the other members alone. -/
theorem onDialogUXStateChanged_new_state (ui : UIManager) (s : DialogUXState)
    (h : s ≠ ui.m_dialogState) :
    (ui.onDialogUXStateChanged s).1 = { ui with m_dialogState := s } ∧
      (s = DialogUXState.IDLE → signals (ui.onDialogUXStateChanged s).2 = ["on_idle"]) ∧
      (s = DialogUXState.LISTENING →
        signals (ui.onDialogUXStateChanged s).2 = ["on_listen"]) ∧
      (s = DialogUXState.THINKING →
        signals (ui.onDialogUXStateChanged s).2 = ["on_think"]) ∧
      (s = DialogUXState.SPEAKING →
        signals (ui.onDialogUXStateChanged s).2 = ["on_speak"]) := by
  refine ⟨?_, ?_, ?_, ?_, ?_⟩
  · unfold UIManager.onDialogUXStateChanged
    cases s <;> simp [h]
  all_goals
    intro hs
    subst hs
    rw [signals_onDialogUXStateChanged]
    simp [h]

/-- Witness of C7: Thinking reported to an object that has recorded Listening. -/
theorem onDialogUXStateChanged_new_state_witness :
    ((connectedUI DialogUXState.LISTENING).onDialogUXStateChanged DialogUXState.THINKING).1 =
        connectedUI DialogUXState.THINKING ∧
      signals ((connectedUI DialogUXState.LISTENING).onDialogUXStateChanged
        DialogUXState.THINKING).2 = ["on_think"] :=
  have h := onDialogUXStateChanged_new_state (connectedUI DialogUXState.LISTENING)
    DialogUXState.THINKING (by decide)
  ⟨h.1, h.2.2.2.1 rfl⟩

/-- C8: a report of the connection status that is already recorded makes no call and
changes nothing; a report of another status records it and requests connecting for
DISCONNECTED or PENDING, ready for CONNECTED, and no signal for any other value; the
reason argument has no influence on the result. -/
theorem onConnectionStatusChanged_signals (ui : UIManager) (c : Status)
    (reason : ChangedReason) :
    (c = ui.m_connectionStatus → ui.onConnectionStatusChanged c reason = (ui, [])) ∧
      (c ≠ ui.m_connectionStatus →
        (ui.onConnectionStatusChanged c reason).1 = { ui with m_connectionStatus := c } ∧
        signals (ui.onConnectionStatusChanged c reason).2 =
          if c = Status.DISCONNECTED ∨ c = Status.PENDING then ["connecting"]
          else if c = Status.CONNECTED then ["ready"]
          else []) ∧
      ∀ reason2 : ChangedReason,
        ui.onConnectionStatusChanged c reason = ui.onConnectionStatusChanged c reason2 := by
  refine ⟨?_, ?_, fun _ => rfl⟩
  · intro h
    simp [UIManager.onConnectionStatusChanged, h]
  · intro h
    have h1 : ¬ ui.m_connectionStatus = c := fun e => h e.symm
    unfold UIManager.onConnectionStatusChanged
    cases c <;> simp [h1, signals_append, signals_printState] <;> simp [signals]

/-- Witness of C8: CONNECTED reported twice, and an unnamed status value reported, to an
object that has recorded PENDING. -/
theorem onConnectionStatusChanged_signals_witness :
    (connectedUI DialogUXState.IDLE).onConnectionStatusChanged Status.CONNECTED 0 =
        (connectedUI DialogUXState.IDLE, []) ∧
      signals ((connectedUI DialogUXState.IDLE).onConnectionStatusChanged Status.PENDING 3).2 =
        ["connecting"] ∧
      signals ((connectedUI DialogUXState.IDLE).onConnectionStatusChanged (Status.other 7) 3).2 =
        [] :=
  ⟨(onConnectionStatusChanged_signals (connectedUI DialogUXState.IDLE) Status.CONNECTED 0).1 rfl,
    ((onConnectionStatusChanged_signals (connectedUI DialogUXState.IDLE) Status.PENDING 3).2.1
      (by decide)).2,
    ((onConnectionStatusChanged_signals (connectedUI DialogUXState.IDLE) (Status.other 7) 3).2.1
      (by decide)).2⟩

/-- C16: a report of FINISHED that differs from the recorded state requests no signal
and is recorded all the same; so for the reports Speaking, Finished, Speaking, starting
from a recorded state other than Speaking, the second Speaking is not suppressed and the
signals are on_speak, on_speak. -/
theorem finished_report_breaks_suppression (ui : UIManager) :
    (ui.m_dialogState ≠ DialogUXState.FINISHED →
        signals (ui.onDialogUXStateChanged DialogUXState.FINISHED).2 = [] ∧
        (ui.onDialogUXStateChanged DialogUXState.FINISHED).1 =
          { ui with m_dialogState := DialogUXState.FINISHED }) ∧
      (ui.m_dialogState ≠ DialogUXState.SPEAKING →
        signals (ui.reportDialogStates
          [DialogUXState.SPEAKING, DialogUXState.FINISHED, DialogUXState.SPEAKING]).2 =
          ["on_speak", "on_speak"]) := by
  constructor
  · intro h
    have h1 : ¬ DialogUXState.FINISHED = ui.m_dialogState := fun e => h e.symm
    refine ⟨?_, ?_⟩
    · rw [signals_onDialogUXStateChanged]
      simp [h1]
    · unfold UIManager.onDialogUXStateChanged
      simp [h1]
  · intro h
    have h1 : ¬ DialogUXState.SPEAKING = ui.m_dialogState := fun e => h e.symm
    simp [UIManager.reportDialogStates, signals_append, signals_onDialogUXStateChanged,
      onDialogUXStateChanged_records, h1]

/-- Witness of C16: the reports Speaking, Finished, Speaking made to an object that has
recorded Idle. -/
theorem finished_report_breaks_suppression_witness :
    signals ((connectedUI DialogUXState.SPEAKING).onDialogUXStateChanged
        DialogUXState.FINISHED).2 = [] ∧
      signals ((connectedUI DialogUXState.IDLE).reportDialogStates
        [DialogUXState.SPEAKING, DialogUXState.FINISHED, DialogUXState.SPEAKING]).2 =
        ["on_speak", "on_speak"] :=
  ⟨((finished_report_breaks_suppression (connectedUI DialogUXState.SPEAKING)).1
      (by decide)).1,
    (finished_report_breaks_suppression (connectedUI DialogUXState.IDLE)).2 (by decide)⟩

/-! ## Sending a signal -/

/-- Counterexample to C11 as stated: when message construction fails, and when the send
call fails, `sendDbusSignal` returns after its log entry without a flush. -/
theorem sendDbusSignal_failure_without_flush :
    (connectedUI DialogUXState.IDLE).sendDbusSignal "on_idle" noMessage =
        [BusCall.ACSDK_LOG_INFO "DBusSignal" "on_idle",
          BusCall.dbus_message_new_signal "/io/respeaker/respeakerd" "respeakerd.signal"
            "on_idle" none,
          BusCall.ACSDK_ERROR "DBusFailed" "create message failed"] ∧
      flushes ((connectedUI DialogUXState.IDLE).sendDbusSignal "on_idle" noMessage) = [] ∧
      flushes ((connectedUI DialogUXState.IDLE).sendDbusSignal "on_idle" sendFails) = [] := by
  refine ⟨by decide, by decide, by decide⟩

/-- C11 (amended): `sendDbusSignal` flushes the connection exactly when the message was
constructed and the send call succeeded, and then once, after the send and before the
message is released. When message construction fails it returns after the log entry
without sending or flushing; when the send call fails it returns after the log entry
without flushing. -/
theorem sendDbusSignal_flush_iff_sent (ui : UIManager) (signalName : String)
    (env : SendEnv) :
    (env.newSignalOk = true ∧ env.sendOk = true →
        ui.sendDbusSignal signalName env =
          [BusCall.ACSDK_LOG_INFO "DBusSignal" signalName,
            BusCall.dbus_message_new_signal "/io/respeaker/respeakerd" "respeakerd.signal"
              signalName (some ⟨DBusMessageType.SIGNAL, "respeakerd.signal", signalName⟩),
            BusCall.dbus_connection_send ui.m_dbus_conn
              ⟨DBusMessageType.SIGNAL, "respeakerd.signal", signalName⟩ true,
            BusCall.dbus_connection_flush ui.m_dbus_conn,
            BusCall.dbus_message_unref
              ⟨DBusMessageType.SIGNAL, "respeakerd.signal", signalName⟩] ∧
        flushes (ui.sendDbusSignal signalName env) = [ui.m_dbus_conn]) ∧
      (env.newSignalOk = false →
        ui.sendDbusSignal signalName env =
          [BusCall.ACSDK_LOG_INFO "DBusSignal" signalName,
            BusCall.dbus_message_new_signal "/io/respeaker/respeakerd" "respeakerd.signal"
              signalName none,
            BusCall.ACSDK_ERROR "DBusFailed" "create message failed"] ∧
        flushes (ui.sendDbusSignal signalName env) = [] ∧
        sendHandles (ui.sendDbusSignal signalName env) = []) ∧
      (env.newSignalOk = true ∧ env.sendOk = false →
        ui.sendDbusSignal signalName env =
          [BusCall.ACSDK_LOG_INFO "DBusSignal" signalName,
            BusCall.dbus_message_new_signal "/io/respeaker/respeakerd" "respeakerd.signal"
              signalName (some ⟨DBusMessageType.SIGNAL, "respeakerd.signal", signalName⟩),
            BusCall.dbus_connection_send ui.m_dbus_conn
              ⟨DBusMessageType.SIGNAL, "respeakerd.signal", signalName⟩ false,
            BusCall.ACSDK_ERROR "DBusFailed" "send message failed"] ∧
        flushes (ui.sendDbusSignal signalName env) = []) := by
  obtain ⟨n, k⟩ := env
  cases n <;> cases k <;> simp [UIManager.sendDbusSignal, flushes, sendHandles]

/-- Witness of C11 (amended): the three paths on an object with connection 9. -/
theorem sendDbusSignal_flush_iff_sent_witness :
    flushes ((connectedUI DialogUXState.IDLE).sendDbusSignal "ready" sendWorks) = [some 9] ∧
      flushes ((connectedUI DialogUXState.IDLE).sendDbusSignal "ready" noMessage) = [] ∧
      flushes ((connectedUI DialogUXState.IDLE).sendDbusSignal "ready" sendFails) = [] :=
  ⟨((sendDbusSignal_flush_iff_sent (connectedUI DialogUXState.IDLE) "ready" sendWorks).1
      ⟨rfl, rfl⟩).2,
    ((sendDbusSignal_flush_iff_sent (connectedUI DialogUXState.IDLE) "ready" noMessage).2.1
      rfl).2.1,
    ((sendDbusSignal_flush_iff_sent (connectedUI DialogUXState.IDLE) "ready" sendFails).2.2
      ⟨rfl, rfl⟩).2⟩

theorem sendHandles_append (a b : List BusCall) :
    sendHandles (a ++ b) = sendHandles a ++ sendHandles b := by
  simp [sendHandles]

/-- Every send of `sendDbusSignal` is made on the stored handle, null or not. -/
theorem sendHandles_sendDbusSignal (ui : UIManager) (signalName : String) (env : SendEnv) :
    ∀ h ∈ sendHandles (ui.sendDbusSignal signalName env), h = ui.m_dbus_conn := by
  obtain ⟨n, k⟩ := env
  cases n <;> cases k <;> simp [UIManager.sendDbusSignal, sendHandles]

theorem sendHandles_expand (ui : UIManager) (env : SendEnv) (evs : List UIEvent) :
    ∀ h ∈ sendHandles (UIManager.expand ui env evs), h = ui.m_dbus_conn := by
  induction evs with
  | nil => simp [UIManager.expand, sendHandles]
  | cons e rest ih =>
    intro h hm
    cases e with
    | prettyPrint text =>
      apply ih h
      simpa [UIManager.expand, sendHandles] using hm
    | sendDbusSignal n =>
      simp only [UIManager.expand, sendHandles_append, List.mem_append] at hm
      rcases hm with hm | hm
      · exact sendHandles_sendDbusSignal ui n env h hm
      · exact ih h hm

/-- The state tasks leave the connection pointer alone. -/
theorem onDialogUXStateChanged_conn (ui : UIManager) (s : DialogUXState) :
    (ui.onDialogUXStateChanged s).1.m_dbus_conn = ui.m_dbus_conn := by
  unfold UIManager.onDialogUXStateChanged
  by_cases h : s = ui.m_dialogState
  · simp [h]
  · cases s <;> simp [h]

theorem onConnectionStatusChanged_conn (ui : UIManager) (c : Status) (r : ChangedReason) :
    (ui.onConnectionStatusChanged c r).1.m_dbus_conn = ui.m_dbus_conn := by
  unfold UIManager.onConnectionStatusChanged
  by_cases h : ui.m_connectionStatus = c
  · simp [h]
  · cases c <;> simp [h]

/-- The function `initDbus` stores the returned handle, returns true exactly when that
handle is not null, and sends nothing. -/
theorem initDbus_result (ui : UIManager) (bus : GetEnv) :
    (ui.initDbus bus).2.1.m_dbus_conn = bus.busGetConn ∧
      ((ui.initDbus bus).1 = true ↔ bus.busGetConn ≠ none) ∧
      sendHandles (ui.initDbus bus).2.2 = [] := by
  obtain ⟨c, e⟩ := bus
  cases c <;> cases e <;> simp [UIManager.initDbus, sendHandles]

/-- Every send of one request is made on the handle stored when the request arrives. -/
theorem sendHandles_serve (ui : UIManager) (q : Request) :
    ∀ h ∈ sendHandles (ui.serve q).2, h = ui.m_dbus_conn := by
  intro h hm
  cases q with
  | initDbus bus =>
    simp [UIManager.serve, (initDbus_result ui bus).2.2] at hm
  | onDialogUXStateChanged state send =>
    have := sendHandles_expand (ui.onDialogUXStateChanged state).1 send
      (ui.onDialogUXStateChanged state).2 h hm
    rwa [onDialogUXStateChanged_conn] at this
  | onConnectionStatusChanged status reason send =>
    have := sendHandles_expand (ui.onConnectionStatusChanged status reason).1 send
      (ui.onConnectionStatusChanged status reason).2 h hm
    rwa [onConnectionStatusChanged_conn] at this

/-- While the stored handle is not null and every `initDbus` returns a handle, every
send is made on a handle that is not null. -/
theorem sendHandles_serveAll (reqs : List Request) :
    ∀ ui : UIManager, ui.m_dbus_conn ≠ none →
      (∀ bus, Request.initDbus bus ∈ reqs → bus.busGetConn ≠ none) →
      ∀ h ∈ sendHandles (ui.serveAll reqs).2, h ≠ none := by
  induction reqs with
  | nil => intro ui _ _ h hm; simp [UIManager.serveAll, sendHandles] at hm
  | cons q rest ih =>
    intro ui hconn hall h hm
    simp only [UIManager.serveAll, sendHandles_append, List.mem_append] at hm
    rcases hm with hm | hm
    · rw [sendHandles_serve ui q h hm]; exact hconn
    · have hnext : (ui.serve q).1.m_dbus_conn ≠ none := by
        cases q with
        | initDbus bus =>
          simp only [UIManager.serve, (initDbus_result ui bus).1]
          exact hall bus (List.mem_cons_self _ _)
        | onDialogUXStateChanged state send =>
          simp only [UIManager.serve, onDialogUXStateChanged_conn]; exact hconn
        | onConnectionStatusChanged status reason send =>
          simp only [UIManager.serve, onConnectionStatusChanged_conn]; exact hconn
      exact ih (ui.serve q).1 hnext (fun bus hb => hall bus (List.mem_cons_of_mem _ hb)) h hm

/-- Counterexample to C12 as stated: `initDbus` gets no handle and returns false, the
dialog state then changes to Listening, and `sendDbusSignal` calls
`dbus_connection_send` on the null handle. The same happens without any `initDbus`. -/
theorem send_on_null_handle_after_failed_initDbus :
    (freshUI.initDbus noHandle).1 = false ∧
      (freshUI.serveAll [Request.initDbus noHandle,
        Request.onDialogUXStateChanged DialogUXState.LISTENING sendFails]).2 =
        [BusCall.dbus_bus_get none true,
          BusCall.ACSDK_ERROR "initFailed" "getDBusConnectionFailed",
          BusCall.dbus_error_free,
          BusCall.ACSDK_ERROR "initFailed" "getDBusConnectionFailed-1",
          BusCall.prettyPrint "Client not connected!",
          BusCall.ACSDK_LOG_INFO "DBusSignal" "on_listen",
          BusCall.dbus_message_new_signal "/io/respeaker/respeakerd" "respeakerd.signal"
            "on_listen" (some ⟨DBusMessageType.SIGNAL, "respeakerd.signal", "on_listen"⟩),
          BusCall.dbus_connection_send none
            ⟨DBusMessageType.SIGNAL, "respeakerd.signal", "on_listen"⟩ false,
          BusCall.ACSDK_ERROR "DBusFailed" "send message failed"] ∧
      sendHandles (freshUI.serveAll
        [Request.onConnectionStatusChanged Status.CONNECTED 0 sendFails]).2 = [none] := by
  refine ⟨by decide, by decide, by decide⟩

/-- C12 (amended): `sendDbusSignal` does not test the connection; every send of a state
report is made on the handle stored at that moment, null or not. The function
`initDbus` stores the handle it got and returns true exactly when that handle is not
null. So in every sequence of calls that begins with an `initDbus` that returned true
and in which every later `initDbus` returns a handle, every send is made on a handle
that is not null. -/
theorem sends_on_stored_handle (ui : UIManager) (bus : GetEnv) (reqs : List Request) :
    (∀ q : Request, ∀ h ∈ sendHandles (ui.serve q).2, h = ui.m_dbus_conn) ∧
      ((ui.initDbus bus).1 = true ↔ (ui.initDbus bus).2.1.m_dbus_conn ≠ none) ∧
      ((ui.initDbus bus).1 = true →
        (∀ b, Request.initDbus b ∈ reqs → b.busGetConn ≠ none) →
        ∀ h ∈ sendHandles (ui.serveAll (Request.initDbus bus :: reqs)).2, h ≠ none) := by
  have hinit := initDbus_result ui bus
  refine ⟨sendHandles_serve ui, ?_, ?_⟩
  · rw [hinit.1]; exact hinit.2.1
  · intro hok hall h hm
    simp only [UIManager.serveAll, sendHandles_append, List.mem_append] at hm
    rcases hm with hm | hm
    · simp [UIManager.serve, hinit.2.2] at hm
    · refine sendHandles_serveAll reqs (ui.serve (Request.initDbus bus)).1 ?_ hall h hm
      simp only [UIManager.serve, hinit.1]
      exact hinit.2.1.1 hok

/-- Witness of C12 (amended): `initDbus` gets connection 9, then two state reports send
on it. -/
theorem sends_on_stored_handle_witness :
    (freshUI.initDbus handleNine).1 = true ∧
      sendHandles (freshUI.serveAll [Request.initDbus handleNine,
        Request.onDialogUXStateChanged DialogUXState.LISTENING sendWorks,
        Request.onConnectionStatusChanged Status.CONNECTED 0 sendFails]).2 =
        [some 9, some 9] ∧
      (none : Option DBusConnection) ∉ sendHandles (freshUI.serveAll
        [Request.initDbus handleNine,
          Request.onDialogUXStateChanged DialogUXState.LISTENING sendWorks,
          Request.onConnectionStatusChanged Status.CONNECTED 0 sendFails]).2 :=
  ⟨by decide, by decide,
    fun hm => (sends_on_stored_handle freshUI handleNine
      [Request.onDialogUXStateChanged DialogUXState.LISTENING sendWorks,
        Request.onConnectionStatusChanged Status.CONNECTED 0 sendFails]).2.2 (by decide)
      (by intro b hb; simp at hb) none hm rfl⟩

end sampleApp

end alexaClientSDK
